import Mathlib

/-!
Verification of the SmartBag location-tracker server (`server.js`).

The development shallowly embeds the server's in-memory state and the
handlers relevant to the specification claims:

* the Socket.IO connection registry (`connectedDevices`, the
  `authenticate` handler for devices and web clients, the `disconnect`
  handler),
* the location state (`currentLocation`, `locationHistory`,
  `updateLocationData`),
* the per-device PDF history ledger (`addToPdfHistory`),
* the per-device configuration store (`userConfigurations`,
  `qrPdfUpload`, `qrUpload`, the HTTP `POST /api/pdf` and
  `POST /api/upload-photo/:qrFilename` and `POST /api/location`
  endpoints),
* the Sharp re-encoding loop of the photo-upload endpoint.

JavaScript `Map`s are modelled as association lists with JS `Map`
semantics (`set` replaces in place, `delete` filters), JS numbers that
the server only ever parses and compares are modelled as `Int`/`Nat`,
truthiness tests (`!latitude`, `qrInfo.label ||`) are modelled
explicitly, and the filesystem is a set of existing paths.  Message
emission (`socket.emit`, `io.emit`, `broadcastToWebClients`) is
recorded in a delivery log of `(socket id, event)` pairs, with the
recipient sets computed exactly as the source computes them.
-/

namespace SmartBag

abbrev SocketId := Nat

/-- `AUTHORIZED_DEVICES` fallback defaults (server.js line 427). -/
def AUTHORIZED_DEVICES : List String :=
  ["raspi-001", "raspi-002", "raspi-tracker-main", "smartbag-device-01"]

/-! ### JS `Map` as an association list -/

/-- `Map.get`: value of the first entry with the given key. -/
def mapGet (m : List (String × α)) (k : String) : Option α :=
  (m.find? (fun p => p.1 = k)).map (·.2)

/-- `Map.has`. -/
def mapHas (m : List (String × α)) (k : String) : Bool :=
  m.any (fun p => p.1 = k)

/-- `Map.set`: replace the entry with the given key in place if present,
else append at the end (JS `Map` keys are unique, so "the" entry is the
first one; the model's maps satisfy `NodupKeys` throughout). -/
def mapSet : List (String × α) → String → α → List (String × α)
  | [], k, v => [(k, v)]
  | p :: t, k, v => if p.1 = k then (k, v) :: t else p :: mapSet t k v

/-- `Map.delete`. -/
def mapDelete (m : List (String × α)) (k : String) : List (String × α) :=
  m.filter (fun p => p.1 ≠ k)

/-- The keys of the map are pairwise distinct (a JS `Map` guarantees this
structurally; the model re-establishes it as an invariant). -/
def NodupKeys (m : List (String × α)) : Prop :=
  (m.map Prod.fst).Nodup

/-! ### Data model

JS numbers that the server parses and stores are modelled as `Int`
(coordinates, accuracies) or `Nat` (timestamps, sizes); `null`/absent
fields as `Option`. -/

/-- The `currentLocation` object (server.js lines 440-446); also the shape
of the records pushed onto `locationHistory` and broadcast to clients. -/
structure CurrentLocation where
  latitude : Option Int
  longitude : Option Int
  timestamp : Option Nat
  accuracy : Option Int
  deviceId : Option String
deriving Repr, DecidableEq, Inhabited

/-- Initial `currentLocation`: all fields `null`. -/
def initialLocation : CurrentLocation :=
  { latitude := none, longitude := none, timestamp := none,
    accuracy := none, deviceId := none }

/-- A QR-code entry of a device's configuration.  The `qrPdfUpload` /
`POST /api/pdf` paths populate the `imageData` field; the legacy
`qrUpload` path populates the `data` field instead (both exist on the JS
objects, whichever path created them leaves the other `undefined`). -/
structure QREntry where
  filename : String
  label : String
  uploadedAt : Nat
  hasPhoto : Bool
  imageData : Option String
  data : Option String
deriving Repr, DecidableEq, Inhabited

/-- An item-photo entry (`userConfig.itemImages` element). -/
structure PhotoEntry where
  filename : String
  qrFilename : String
  filePath : String
  compressedData : String
  uploadedAt : Nat
  size : Nat
  compressed : Bool
deriving Repr, DecidableEq, Inhabited

/-- `userConfig.qrPdf` (pointer to the most recent PDF). -/
structure PdfInfo where
  filename : String
  originalFilename : String
  permanentFilename : String
  filePath : String
  uploadedAt : Nat
  historyId : String
deriving Repr, DecidableEq, Inhabited

/-- One per-device configuration (`userConfigurations` value). -/
structure UserConfig where
  qrCodes : List QREntry
  itemImages : List PhotoEntry
  completed : Bool
  qrPdf : Option PdfInfo
deriving Repr, DecidableEq, Inhabited

/-- The fresh configuration installed when a device uploads for the first
time. -/
def emptyConfig : UserConfig :=
  { qrCodes := [], itemImages := [], completed := false, qrPdf := none }

/-- One PDF-ledger entry (`pdfHistory` list element). -/
structure PdfHistoryEntry where
  filename : String
  uploadedAt : Nat
  filePath : String
  qrCount : Nat
  fileSize : Nat
  id : String
deriving Repr, DecidableEq, Inhabited

/-- The server's global mutable state (the filesystem is modelled as the
set of currently existing paths). -/
structure SState where
  currentLocation : CurrentLocation
  locationHistory : List CurrentLocation
  connectedDevices : List (String × SocketId)
  userConfigurations : List (String × UserConfig)
  pdfHistory : List (String × List PdfHistoryEntry)
  files : List String
deriving Repr, DecidableEq, Inhabited

def initialSState : SState :=
  { currentLocation := initialLocation, locationHistory := [],
    connectedDevices := [], userConfigurations := [], pdfHistory := [],
    files := [] }

/-- `fs.writeFileSync`: the path exists afterwards. -/
def addFile (files : List String) (path : String) : List String :=
  if path ∈ files then files else files ++ [path]

/-- `fs.unlinkSync` guarded by `fs.existsSync`: the path is gone
afterwards. -/
def removeFile (files : List String) (path : String) : List String :=
  files.filter (· ≠ path)

/-! ### String helpers -/

/-- JS `x || default` for an optional string (empty string is falsy). -/
def jsOr (o : Option String) (d : String) : String :=
  match o with
  | some s => if s = "" then d else s
  | none => d

/-- JS truthiness of an optional number (absent and `0` are falsy). -/
def truthyInt (o : Option Int) : Bool :=
  match o with
  | some x => x ≠ 0
  | none => false

/-- `filename.replace(/\.[^/.]+$/, "")`: drop a final extension (a dot
followed by one or more characters none of which is a dot or slash). -/
def stripExt (s : String) : String :=
  let rev := s.toList.reverse
  let ext := rev.takeWhile (fun c => c ≠ '.' ∧ c ≠ '/')
  match rev.drop ext.length with
  | '.' :: rest => if ext.isEmpty then s else String.mk rest.reverse
  | _ => s

/-- `qrFilename.replace(/\.[^/.]+$/, '.jpg')` (photo filename derivation,
server.js line 698). -/
def replaceExtWithJpg (s : String) : String :=
  let rev := s.toList.reverse
  let ext := rev.takeWhile (fun c => c ≠ '.' ∧ c ≠ '/')
  match rev.drop ext.length with
  | '.' :: rest => if ext.isEmpty then s else String.mk rest.reverse ++ ".jpg"
  | _ => s

/-- `extractLabelFromFilename` (server.js lines 474-482). -/
def extractLabelFromFilename (filename : String) : String :=
  let nameWithoutExt := stripExt filename
  let parts := nameWithoutExt.splitOn "_"
  match parts with
  | p0 :: p1 :: rest => p0 ++ " - " ++ String.intercalate " " (p1 :: rest)
  | _ => nameWithoutExt

/-! ### Location state (`updateLocationData`, server.js lines 1043-1058) -/

/-- `MAX_HISTORY` default (no `MAX_HISTORY` environment variable set). -/
def MAX_HISTORY : Nat := 100

/-- `updateLocationData` without the trailing `io.emit` (the broadcast is
modelled at the call sites, which have access to the socket registry):
overwrite `currentLocation`, push a copy onto `locationHistory`, drop the
oldest entry if the history exceeds `maxHistory`. -/
def updateLocationData (maxHistory : Nat) (s : SState)
    (locationData : CurrentLocation) : SState :=
  let s := { s with currentLocation := locationData }
  let hist := s.locationHistory ++ [s.currentLocation]
  let hist := if hist.length > maxHistory then hist.tail else hist
  { s with locationHistory := hist }

/-! ### PDF history ledger (`addToPdfHistory`, server.js lines 494-528) -/

/-- Result of `addToPdfHistory`: updated ledger map, updated filesystem,
and the entry that was created (the function's return value). -/
structure PdfHistResult where
  pdfHistory : List (String × List PdfHistoryEntry)
  files : List String
  entry : PdfHistoryEntry
deriving Repr, DecidableEq

/-- The `historyEntry` object built by `addToPdfHistory`; the generated
id `pdf_${Date.now()}_${random}` is modelled with the server clock `now`
and an opaque random suffix. -/
def mkPdfEntry (filename filePath : String) (qrCount fileSize now : Nat)
    (rand : String) : PdfHistoryEntry :=
  { filename := filename, uploadedAt := now, filePath := filePath,
    qrCount := qrCount, fileSize := fileSize,
    id := "pdf_" ++ toString now ++ "_" ++ rand }

/-- `addToPdfHistory(deviceId, filename, filePath, qrCount, fileSize)`:
initialise the device's ledger if absent, unshift the new entry
(newest-first), and if the ledger now holds more than 50 entries pop the
oldest one and delete its backing file (`fs.existsSync` +
`fs.unlinkSync`, errors swallowed). -/
def addToPdfHistory (ph : List (String × List PdfHistoryEntry))
    (files : List String) (deviceId filename filePath : String)
    (qrCount fileSize : Nat) (now : Nat) (rand : String) : PdfHistResult :=
  let ph := if mapHas ph deviceId then ph else mapSet ph deviceId []
  let history := (mapGet ph deviceId).getD []
  let historyEntry : PdfHistoryEntry :=
    mkPdfEntry filename filePath qrCount fileSize now rand
  let history := historyEntry :: history
  if history.length > 50 then
    let oldEntry := history.getLastD default
    { pdfHistory := mapSet ph deviceId history.dropLast,
      files := removeFile files oldEntry.filePath,
      entry := historyEntry }
  else
    { pdfHistory := mapSet ph deviceId history,
      files := files,
      entry := historyEntry }

/-! ### Photo re-encoding loop (server.js lines 701-717)

The Sharp pipeline is abstracted by a function `encode : quality ↦ size
of the re-encoded JPEG at that quality`; nothing else about the image
matters to the loop. -/

/-- The 5MB cap (`maxSize`, server.js line 707; also the multer limit). -/
def maxPhotoSize : Nat := 5 * 1024 * 1024

/-- The `while (finalBuffer.length > maxSize && quality > 20)` loop:
step quality down by 10 and re-encode.  Starting from quality 85 the
quality sequence is 85, 75, …, 25, 15, so the lowest quality ever
encoded (the floor) is 15. -/
def compressLoop (encode : Nat → Nat) (quality size : Nat) : Nat × Nat :=
  if h : size > maxPhotoSize ∧ quality > 20 then
    compressLoop encode (quality - 10) (encode (quality - 10))
  else (quality, size)
termination_by quality
decreasing_by omega

/-- Iteration count of `compressLoop` (same recursion structure). -/
def compressSteps (encode : Nat → Nat) (quality size : Nat) : Nat :=
  if h : size > maxPhotoSize ∧ quality > 20 then
    compressSteps encode (quality - 10) (encode (quality - 10)) + 1
  else 0
termination_by quality
decreasing_by omega

/-! ### Socket.IO world

A `Sock` is the mutable per-transport state the server reads and writes:
the `socket.deviceType` / `socket.deviceId` / `socket.authenticatedDeviceId`
expando fields, the connected flag, and the HTTP session propagated into
`socket.handshake.session` at connection time (express-session
deserialises the session once per request, so the snapshot a socket sees
is fixed for the lifetime of the transport).  `hasDeviceListeners`
records whether the device-side `socket.on(...)` handlers were
registered (they are, exactly once a device handshake succeeds). -/
structure Sock where
  connected : Bool
  deviceType : Option String
  deviceId : Option String
  authenticatedDeviceId : Option String
  sessionAuth : Bool
  sessionDeviceId : String
  hasDeviceListeners : Bool
deriving Repr, DecidableEq, Inhabited

/-- The `configurationData` view of a QR entry (server.js lines
1340-1346).  Note the source reads `qr.data` into the `imageData` field
of the view. -/
structure QRView where
  filename : String
  label : String
  uploadedAt : Nat
  hasPhoto : Bool
  imageData : Option String
deriving Repr, DecidableEq, Inhabited

/-- The `configurationData` view of an item photo (metadata only, no
`compressedData`; server.js lines 1347-1352). -/
structure PhotoView where
  filename : String
  qrFilename : String
  uploadedAt : Nat
  size : Nat
deriving Repr, DecidableEq, Inhabited

def toQRView (qr : QREntry) : QRView :=
  { filename := qr.filename, label := qr.label, uploadedAt := qr.uploadedAt,
    hasPhoto := qr.hasPhoto, imageData := qr.data }

def toPhotoView (img : PhotoEntry) : PhotoView :=
  { filename := img.filename, qrFilename := img.qrFilename,
    uploadedAt := img.uploadedAt, size := img.size }

/-- Server→client Socket.IO events, with the payload fields the claims
inspect. -/
inductive Ev where
  | authError (error : String)
  | authSuccess (message : String)
  | deviceStatus (connectedDevices : List String) (totalDevices : Nat)
  | locationUpdate (loc : CurrentLocation)
  | locationHistoryEv (history : List CurrentLocation)
  | locationAck (success : Bool)
  | locationError (error : String)
  | authRequired
  | configurationData (qrCodes : List QRView) (itemImages : List PhotoView)
  | deviceConnectionStatus (connected : Bool) (deviceId : String)
  | qrPdfReceived (qrCodes : List QREntry) (filename : String) (totalQRs : Nat)
  | qrPdfUploadAck (filename : String) (processedQRs : Nat)
  | qrPdfUploadError (error : String)
  | qrCodeReceived (qr : QREntry)
  | qrUploadAck (filename : String)
  | qrUploadError (error : String)
  | photoData (filename : String) (data : String) (originalQR : String)
  | photoTransferComplete (count : Nat)
  | photoUploaded (qrFilename : String) (photoFilename : String) (size : Nat)
  | pdfReceived (filename : String) (qrCodes : List QREntry) (uploadedAt : Nat)
deriving Repr, DecidableEq

/-- The whole observable world: transports, server state, and the log of
delivered `(socket, event)` messages. -/
structure World where
  sockets : List (SocketId × Sock)
  server : SState
  log : List (SocketId × Ev)
deriving Repr, DecidableEq

def initWorld : World := { sockets := [], server := initialSState, log := [] }

def getSock (w : World) (sid : SocketId) : Option Sock :=
  (w.sockets.find? (fun p => p.1 = sid)).map (·.2)

def setSock (w : World) (sid : SocketId) (f : Sock → Sock) : World :=
  { w with sockets := w.sockets.map (fun p => if p.1 = sid then (p.1, f p.2) else p) }

/-- `socket.emit(ev)`. -/
def emitTo (w : World) (sid : SocketId) (ev : Ev) : World :=
  { w with log := w.log ++ [(sid, ev)] }

/-- Recipient list of `io.emit(ev)`: every connected transport. -/
def ioEmitList (w : World) (ev : Ev) : List (SocketId × Ev) :=
  (w.sockets.filter (fun p => p.2.connected)).map (fun p => (p.1, ev))

def ioEmit (w : World) (ev : Ev) : World :=
  { w with log := w.log ++ ioEmitList w ev }

/-- Recipient list of `broadcastToWebClients(deviceId, ev)` (server.js
lines 484-491): connected transports with `deviceType === 'client'` and
`authenticatedDeviceId === deviceId`. -/
def scopedList (w : World) (deviceId : String) (ev : Ev) : List (SocketId × Ev) :=
  (w.sockets.filter (fun p =>
    p.2.connected && decide (p.2.deviceType = some "client")
      && decide (p.2.authenticatedDeviceId = some deviceId))).map
    (fun p => (p.1, ev))

def broadcastToWebClients (w : World) (deviceId : String) (ev : Ev) : World :=
  { w with log := w.log ++ scopedList w deviceId ev }

/-- Payload of the `deviceStatus` global broadcast. -/
def deviceStatusEv (s : SState) : Ev :=
  .deviceStatus (s.connectedDevices.map Prod.fst) s.connectedDevices.length

/-- `socket.disconnect()` / transport close: mark the socket
disconnected, then run the `disconnect` handler (server.js lines
1371-1385): if it was an authenticated device, delete its registry entry
(keyed by the socket's own `deviceId` field) and broadcast the updated
presence list. -/
def runDisconnect (w : World) (sid : SocketId) : World :=
  match getSock w sid with
  | none => w
  | some sk =>
    if sk.connected then
      let w := setSock w sid (fun s => { s with connected := false })
      if sk.deviceType = some "device" ∧ sk.deviceId.isSome then
        let did := sk.deviceId.getD ""
        let server := { w.server with
          connectedDevices := mapDelete w.server.connectedDevices did }
        let w := { w with server := server }
        ioEmit w (deviceStatusEv server)
      else w
    else w

/-! ### The `authenticate` handler (server.js lines 1132-1368)

The device branch is modelled as an ordered list of primitive registry
actions so that the order "close the previous transport, then install
the new one" is part of the model, exactly as the statements execute. -/

inductive RegAction where
  | emitToSelf (ev : Ev)
  | closeTransport (sid : SocketId)
  | installConnection (deviceId : String)
  | emitDeviceStatus
deriving Repr, DecidableEq

def applyRegAction (selfSid : SocketId) (w : World) : RegAction → World
  | .emitToSelf ev => emitTo w selfSid ev
  | .closeTransport sid => runDisconnect w sid
  | .installConnection did =>
    let w := { w with server := { w.server with
      connectedDevices := mapSet w.server.connectedDevices did selfSid } }
    setSock w selfSid (fun s => { s with
      deviceId := some did, deviceType := some "device",
      hasDeviceListeners := true })
  | .emitDeviceStatus => ioEmit w (deviceStatusEv w.server)

/-- The device branch of `authenticate` as its ordered action list
(server.js lines 1135-1164): reject unauthorized ids (empty/absent ids
are falsy); otherwise close the previously registered transport for this
id if any, install this transport, ack, and broadcast presence. -/
def deviceAuthActions (w : World) (sid : SocketId) (deviceId : Option String) :
    List RegAction :=
  match deviceId with
  | none => [.emitToSelf (.authError "Unauthorized device ID"), .closeTransport sid]
  | some did =>
    if did ∈ AUTHORIZED_DEVICES then
      (if mapHas w.server.connectedDevices did then
        [.closeTransport ((mapGet w.server.connectedDevices did).getD 0)]
      else []) ++
      [.installConnection did,
       .emitToSelf (.authSuccess "Device authenticated successfully"),
       .emitDeviceStatus]
    else [.emitToSelf (.authError "Unauthorized device ID"), .closeTransport sid]

/-- The web-client branch of `authenticate` (server.js lines 1315-1367).
The pushes are collected into one ordered event list and emitted in
order; every payload reads only `server` state, which emission does not
touch, so this is the same world the statement-by-statement emission
produces. -/
def clientAuthHandle (w : World) (sid : SocketId) (sk : Sock) : World :=
  if sk.sessionAuth then
    let adid := sk.sessionDeviceId
    let w := setSock w sid (fun s => { s with
      deviceType := some "client", authenticatedDeviceId := some adid })
    let evs :=
      (if truthyInt w.server.currentLocation.latitude
          ∧ truthyInt w.server.currentLocation.longitude then
        [Ev.locationUpdate w.server.currentLocation]
      else [])
      ++ [Ev.locationHistoryEv w.server.locationHistory,
          deviceStatusEv w.server]
      ++ (match mapGet w.server.userConfigurations adid with
          | some cfg =>
            [Ev.configurationData (cfg.qrCodes.map toQRView)
              (cfg.itemImages.map toPhotoView)]
          | none => [])
      ++ [Ev.deviceConnectionStatus (mapHas w.server.connectedDevices adid) adid]
    evs.foldl (fun w ev => emitTo w sid ev) w
  else
    let w := setSock w sid (fun s => { s with deviceType := some "client" })
    emitTo w sid .authRequired

/-- The full `authenticate` handler (events are only delivered for
existing, still-connected transports). -/
def handleAuthenticate (w : World) (sid : SocketId) (type_ : String)
    (deviceId : Option String) : World :=
  match getSock w sid with
  | none => w
  | some sk =>
    if sk.connected then
      if type_ = "device" then
        (deviceAuthActions w sid deviceId).foldl (applyRegAction sid) w
      else clientAuthHandle w sid sk
    else w

/-! ### Device-side message handlers -/

/-- `socket.deviceId && AUTHORIZED_DEVICES.includes(socket.deviceId)`
(the empty string is falsy, and also never on the allow-list). -/
def authorizedId (o : Option String) : Bool :=
  match o with
  | some d => decide (d ∈ AUTHORIZED_DEVICES)
  | none => false

/-- Payload of a device `locationUpdate` message.  The client may send a
timestamp; the handler never reads it. -/
structure LocPayload where
  latitude : Int
  longitude : Int
  accuracy : Option Int
  timestamp : Option Nat
deriving Repr, DecidableEq, Inhabited

/-- The `completeLocationData` object (server.js lines 1169-1175):
parsed coordinates, truthiness-guarded accuracy, a server-generated
timestamp (`new Date().toISOString()`, modelled by the server clock
`now`) and the socket's registered device id.  The payload's own
timestamp field is never read. -/
def mkLocRecord (p : LocPayload) (deviceId : Option String) (now : Nat) :
    CurrentLocation :=
  { latitude := some p.latitude, longitude := some p.longitude,
    timestamp := some now,
    accuracy := if truthyInt p.accuracy then p.accuracy else none,
    deviceId := deviceId }

/-- The `locationUpdate` handler (server.js lines 1167-1182).  It exists
only on transports that completed a device handshake
(`hasDeviceListeners`); it re-checks `socket.deviceId` defensively, uses
a server-generated timestamp `now`, updates the location state, emits
the global broadcast, and acks — or emits `locationError` and leaves all
state unchanged. -/
def handleLocationUpdate (w : World) (sid : SocketId) (p : LocPayload)
    (now : Nat) : World :=
  match getSock w sid with
  | none => w
  | some sk =>
    if sk.connected ∧ sk.hasDeviceListeners then
      if authorizedId sk.deviceId then
        let completeLocationData := mkLocRecord p sk.deviceId now
        let w := { w with
          server := updateLocationData MAX_HISTORY w.server completeLocationData }
        let w := ioEmit w (.locationUpdate w.server.currentLocation)
        emitTo w sid (.locationAck true)
      else emitTo w sid (.locationError "Unauthorized location update")
    else w

/-- One element of the `qrList` payload. -/
structure QrInfo where
  filename : String
  label : Option String
  imageData : Option String
deriving Repr, DecidableEq, Inhabited

/-- The QR entry built from one `qrList` element by `qrPdfUpload` /
`POST /api/pdf` (server.js lines 1230-1236 and 1002-1008): label falls
back to `extractLabelFromFilename`, `hasPhoto` is reset to `false`, the
image goes into the `imageData` field. -/
def mkQrEntry (now : Nat) (q : QrInfo) : QREntry :=
  { filename := q.filename,
    label := jsOr q.label (extractLabelFromFilename q.filename),
    uploadedAt := now, hasPhoto := false,
    imageData := q.imageData, data := none }

/-- The `qrPdfUpload` handler (server.js lines 1185-1257).  The
timestamped permanent filename `${timestamp}_${filename}` is modelled
with `toString now` standing for the formatted timestamp. -/
def handleQrPdfUpload (w : World) (sid : SocketId) (filename pdfData : String)
    (qrList : List QrInfo) (now : Nat) (rand : String) : World :=
  match getSock w sid with
  | none => w
  | some sk =>
    if sk.connected ∧ sk.hasDeviceListeners then
      if authorizedId sk.deviceId then
        let did := sk.deviceId.getD ""
        let configs :=
          if mapHas w.server.userConfigurations did then w.server.userConfigurations
          else mapSet w.server.userConfigurations did emptyConfig
        let userConfig := (mapGet configs did).getD emptyConfig
        let permanentFilename := toString now ++ "_" ++ filename
        let pdfFilePath := "qr-codes/" ++ did ++ "/" ++ permanentFilename
        let files := addFile w.server.files pdfFilePath
        let r := addToPdfHistory w.server.pdfHistory files did filename
          pdfFilePath qrList.length pdfData.length now rand
        let qrPdf : PdfInfo :=
          { filename := filename, originalFilename := filename,
            permanentFilename := permanentFilename, filePath := pdfFilePath,
            uploadedAt := r.entry.uploadedAt, historyId := r.entry.id }
        let userConfig := { userConfig with
          qrPdf := some qrPdf, qrCodes := qrList.map (mkQrEntry now) }
        let server := { w.server with
          userConfigurations := mapSet configs did userConfig,
          pdfHistory := r.pdfHistory, files := r.files }
        let w := { w with server := server }
        let w := broadcastToWebClients w did
          (.qrPdfReceived userConfig.qrCodes filename qrList.length)
        emitTo w sid (.qrPdfUploadAck filename userConfig.qrCodes.length)
      else emitTo w sid (.qrPdfUploadError "Unauthorized QR PDF upload")
    else w

/-- The legacy single-`qrUpload` handler (server.js lines 1260-1294):
appends one entry; note it stores the image in the `data` field. -/
def handleQrUpload (w : World) (sid : SocketId) (q : QrInfo) (now : Nat) :
    World :=
  match getSock w sid with
  | none => w
  | some sk =>
    if sk.connected ∧ sk.hasDeviceListeners then
      if authorizedId sk.deviceId then
        let did := sk.deviceId.getD ""
        let configs :=
          if mapHas w.server.userConfigurations did then w.server.userConfigurations
          else mapSet w.server.userConfigurations did emptyConfig
        let userConfig := (mapGet configs did).getD emptyConfig
        let qrData : QREntry :=
          { filename := q.filename,
            label := jsOr q.label (extractLabelFromFilename q.filename),
            uploadedAt := now, hasPhoto := false,
            imageData := none, data := q.imageData }
        let userConfig := { userConfig with qrCodes := userConfig.qrCodes ++ [qrData] }
        let server := { w.server with
          userConfigurations := mapSet configs did userConfig }
        let w := { w with server := server }
        let w := broadcastToWebClients w did (.qrCodeReceived qrData)
        emitTo w sid (.qrUploadAck q.filename)
      else emitTo w sid (.qrUploadError "Unauthorized QR upload")
    else w

/-- The `requestPhotos` handler (server.js lines 1297-1313). -/
def handleRequestPhotos (w : World) (sid : SocketId) : World :=
  match getSock w sid with
  | none => w
  | some sk =>
    if sk.connected ∧ sk.hasDeviceListeners then
      if authorizedId sk.deviceId then
        let did := sk.deviceId.getD ""
        match mapGet w.server.userConfigurations did with
        | some userConfig =>
          let photosToSend := userConfig.itemImages.filter (·.compressed)
          let w := photosToSend.foldl (fun w p =>
            emitTo w sid (.photoData p.filename p.compressedData p.qrFilename)) w
          emitTo w sid (.photoTransferComplete photosToSend.length)
        | none => w
      else w
    else w

/-! ### HTTP endpoints -/

/-- JS truthiness of an optional string (absent and `""` are falsy). -/
def truthyStr (o : Option String) : Bool :=
  match o with
  | some s => s ≠ ""
  | none => false

/-- Body of `POST /api/location`. -/
structure LocBody where
  latitude : Option Int
  longitude : Option Int
  accuracy : Option Int
  deviceId : Option String
deriving Repr, DecidableEq, Inhabited

inductive LocationRes where
  | badRequest (error : String)
  | forbidden (error : String)
  | ok (location : CurrentLocation)
deriving Repr, DecidableEq

/-- `POST /api/location` (server.js lines 901-937).  The field presence
checks are JS truthiness tests (`!latitude || !longitude`), so the
coordinate `0` is rejected as missing. -/
def handleHttpLocation (s : SState) (b : LocBody) (now : Nat) :
    SState × LocationRes :=
  if ¬ truthyInt b.latitude ∨ ¬ truthyInt b.longitude then
    (s, .badRequest "Latitude and longitude are required")
  else if ¬ truthyStr b.deviceId then
    (s, .badRequest "Device ID is required")
  else
    let did := b.deviceId.getD ""
    if did ∉ AUTHORIZED_DEVICES then (s, .forbidden "Unauthorized device")
    else
      let locationData : CurrentLocation :=
        { latitude := b.latitude, longitude := b.longitude,
          timestamp := some now,
          accuracy := if truthyInt b.accuracy then b.accuracy else none,
          deviceId := b.deviceId }
      (updateLocationData MAX_HISTORY s locationData, .ok locationData)

/-- Body of `POST /api/pdf` (absent strings modelled as `""`, which is
what the truthiness checks test). -/
structure PdfBody where
  filename : String
  pdfData : String
  qrList : Option (List QrInfo)
  deviceId : String
deriving Repr, DecidableEq, Inhabited

inductive PdfRes where
  | badRequest (error : String)
  | forbidden (error : String)
  | ok (filename : String) (processedQRs : Nat)
deriving Repr, DecidableEq

/-- `POST /api/pdf` (server.js lines 940-1032).  Unlike `qrPdfUpload`,
the configuration's QR entries are replaced only when a `qrList` array
is present in the body. -/
def handleHttpPdf (s : SState) (b : PdfBody) (now : Nat) (rand : String) :
    SState × PdfRes :=
  if b.filename = "" ∨ b.pdfData = "" then
    (s, .badRequest "Filename and PDF data are required")
  else if b.deviceId = "" then (s, .badRequest "Device ID is required")
  else if b.deviceId ∉ AUTHORIZED_DEVICES then (s, .forbidden "Unauthorized device")
  else
    let did := b.deviceId
    let configs :=
      if mapHas s.userConfigurations did then s.userConfigurations
      else mapSet s.userConfigurations did emptyConfig
    let userConfig := (mapGet configs did).getD emptyConfig
    let permanentFilename := toString now ++ "_" ++ b.filename
    let pdfFilePath := "qr-codes/" ++ did ++ "/" ++ permanentFilename
    let files := addFile s.files pdfFilePath
    let r := addToPdfHistory s.pdfHistory files did b.filename pdfFilePath
      ((b.qrList.map (·.length)).getD 0) b.pdfData.length now rand
    let qrPdf : PdfInfo :=
      { filename := b.filename, originalFilename := b.filename,
        permanentFilename := permanentFilename, filePath := pdfFilePath,
        uploadedAt := r.entry.uploadedAt, historyId := r.entry.id }
    let userConfig := { userConfig with qrPdf := some qrPdf }
    let userConfig :=
      match b.qrList with
      | some l => { userConfig with qrCodes := l.map (mkQrEntry now) }
      | none => userConfig
    let s' := { s with
      userConfigurations := mapSet configs did userConfig,
      pdfHistory := r.pdfHistory, files := r.files }
    (s', .ok b.filename userConfig.qrCodes.length)

/-- An express session as seen by `POST /api/upload-photo`. -/
structure Sess where
  authenticated : Bool
  deviceId : String
deriving Repr, DecidableEq, Inhabited

inductive UploadRes where
  | err (status : Nat) (error : String)
  | ok (filename : String) (size : Nat) (sentToPi : Bool)
deriving Repr, DecidableEq

/-- Set `hasPhoto := true` on the first entry with the given filename
(the handler mutates the object returned by `find`). -/
def setHasPhotoFirst : List QREntry → String → List QREntry
  | [], _ => []
  | q :: qs, fn =>
    if q.filename = fn then { q with hasPhoto := true } :: qs
    else q :: setHasPhotoFirst qs fn

/-- Result of `uploadPhoto`: new configuration map, new filesystem, the
HTTP response, and the `PhotoEntry` created on success (used by the
caller for the device push and the scoped broadcast). -/
structure UploadPhotoOut where
  configs : List (String × UserConfig)
  files : List String
  res : UploadRes
  created : Option PhotoEntry
deriving Repr, DecidableEq

/-- `POST /api/upload-photo/:qrFilename` (server.js lines 669-777), up to
but excluding the socket emissions.  `file` is the multer temp path (or
`none` when no file was sent), `encode q` is the byte size of the image
re-encoded at quality `q`, `encData q` its base64 payload. -/
def uploadPhoto (configs : List (String × UserConfig))
    (connectedDevices : List (String × SocketId)) (files : List String)
    (session : Option Sess) (qrFilename : String) (file : Option String)
    (encode : Nat → Nat) (encData : Nat → String) (now : Nat) :
    UploadPhotoOut :=
  match session with
  | none => ⟨configs, files, .err 401 "Authentication required", none⟩
  | some ss =>
    if ¬ ss.authenticated then
      ⟨configs, files, .err 401 "Authentication required", none⟩
    else
      let deviceId := ss.deviceId
      match file with
      | none => ⟨configs, files, .err 400 "No photo uploaded", none⟩
      | some tmpPath =>
        match mapGet configs deviceId with
        | none => ⟨configs, files, .err 404 "No QR codes found for this device", none⟩
        | some userConfig =>
          match userConfig.qrCodes.find? (fun qr => qr.filename = qrFilename) with
          | none => ⟨configs, files, .err 404 "QR code not found", none⟩
          | some _ =>
            let photoFilename := replaceExtWithJpg qrFilename
            let final := compressLoop encode 85 (encode 85)
            let photoFilePath := "item-images/" ++ deviceId ++ "/" ++ photoFilename
            let files := addFile files photoFilePath
            let photoData : PhotoEntry :=
              { filename := photoFilename, qrFilename := qrFilename,
                filePath := photoFilePath, compressedData := encData final.1,
                uploadedAt := now, size := final.2, compressed := true }
            let userConfig := { userConfig with
              itemImages := userConfig.itemImages ++ [photoData],
              qrCodes := setHasPhotoFirst userConfig.qrCodes qrFilename }
            let files := removeFile files tmpPath
            ⟨mapSet configs deviceId userConfig, files,
             .ok photoFilename final.2 (mapHas connectedDevices deviceId),
             some photoData⟩

/-! ### The event machine -/

inductive Input where
  | connect (sid : SocketId) (sessionAuth : Bool) (sessionDeviceId : String)
  | authenticate (sid : SocketId) (type_ : String) (deviceId : Option String)
  | disconnect (sid : SocketId)
  | locationMsg (sid : SocketId) (p : LocPayload) (now : Nat)
  | qrPdfMsg (sid : SocketId) (filename pdfData : String) (qrList : List QrInfo)
      (now : Nat) (rand : String)
  | qrMsg (sid : SocketId) (q : QrInfo) (now : Nat)
  | requestPhotosMsg (sid : SocketId)
  | httpLocation (b : LocBody) (now : Nat)
  | httpPdf (b : PdfBody) (now : Nat) (rand : String)
  | httpPhoto (session : Option Sess) (qrFilename : String) (file : Option String)
      (encode : Nat → Nat) (encData : Nat → String) (now : Nat)

/-- A new transport: fresh socket with its session snapshot (socket ids
are unique, so a `connect` for an existing id is a no-op). -/
def handleConnect (w : World) (sid : SocketId) (sessionAuth : Bool)
    (sessionDeviceId : String) : World :=
  match getSock w sid with
  | some _ => w
  | none =>
    { w with sockets := w.sockets ++
        [(sid, { connected := true, deviceType := none, deviceId := none,
                 authenticatedDeviceId := none, sessionAuth := sessionAuth,
                 sessionDeviceId := sessionDeviceId,
                 hasDeviceListeners := false })] }

def handleHttpLocationW (w : World) (b : LocBody) (now : Nat) : World :=
  let r := handleHttpLocation w.server b now
  let w' := { w with server := r.1 }
  match r.2 with
  | .ok _ => ioEmit w' (.locationUpdate r.1.currentLocation)
  | _ => w'

def handleHttpPdfW (w : World) (b : PdfBody) (now : Nat) (rand : String) : World :=
  let r := handleHttpPdf w.server b now rand
  let w' := { w with server := r.1 }
  match r.2 with
  | .ok fn _ =>
    let qrCodes := ((mapGet r.1.userConfigurations b.deviceId).getD emptyConfig).qrCodes
    broadcastToWebClients w' b.deviceId (.pdfReceived fn qrCodes now)
  | _ => w'

def handleHttpPhoto (w : World) (session : Option Sess) (qrFilename : String)
    (file : Option String) (encode : Nat → Nat) (encData : Nat → String)
    (now : Nat) : World :=
  let out := uploadPhoto w.server.userConfigurations w.server.connectedDevices
    w.server.files session qrFilename file encode encData now
  let w := { w with server := { w.server with
    userConfigurations := out.configs, files := out.files } }
  match out.created with
  | some pe =>
    let did := (session.map (·.deviceId)).getD ""
    let w :=
      match mapGet w.server.connectedDevices did with
      | some dsid => emitTo w dsid (.photoData pe.filename pe.compressedData pe.qrFilename)
      | none => w
    broadcastToWebClients w did (.photoUploaded pe.qrFilename pe.filename pe.size)
  | none => w

def runInput (w : World) : Input → World
  | .connect sid a d => handleConnect w sid a d
  | .authenticate sid t did => handleAuthenticate w sid t did
  | .disconnect sid => runDisconnect w sid
  | .locationMsg sid p now => handleLocationUpdate w sid p now
  | .qrPdfMsg sid fn pd ql now rand => handleQrPdfUpload w sid fn pd ql now rand
  | .qrMsg sid q now => handleQrUpload w sid q now
  | .requestPhotosMsg sid => handleRequestPhotos w sid
  | .httpLocation b now => handleHttpLocationW w b now
  | .httpPdf b now rand => handleHttpPdfW w b now rand
  | .httpPhoto sess qrfn file enc encD now => handleHttpPhoto w sess qrfn file enc encD now

def runInputs (is : List Input) : World := is.foldl runInput initWorld

/-- The last `n` elements of a list. -/
def lastN (n : Nat) (l : List α) : List α := l.drop (l.length - n)

/-! ### System invariants (used by claims C1 and C8)

`Inv` packages: unique socket ids; unique registry keys; the registry
only references existing transports; a transport whose session snapshot
is unauthenticated never acquires a bound `authenticatedDeviceId`; and
`configurationData` / device-scoped broadcast events are only ever
delivered to transports whose session is authenticated. -/

/-- Events that the server delivers only through
`broadcastToWebClients` (device-scoped broadcasts) or as the
`configurationData` snapshot of the authenticated-client handshake. -/
def badEv : Ev → Bool
  | .configurationData _ _ => true
  | .qrPdfReceived _ _ _ => true
  | .qrCodeReceived _ => true
  | .photoUploaded _ _ _ => true
  | .pdfReceived _ _ _ => true
  | _ => false

def Inv (w : World) : Prop :=
  (w.sockets.map Prod.fst).Nodup
  ∧ NodupKeys w.server.connectedDevices
  ∧ (∀ p ∈ w.server.connectedDevices, (getSock w p.2).isSome)
  ∧ (∀ sid sk, getSock w sid = some sk → sk.sessionAuth = false →
      sk.authenticatedDeviceId = none)
  ∧ (∀ sid ev, (sid, ev) ∈ w.log → badEv ev = true →
      ∃ sk, getSock w sid = some sk ∧ sk.sessionAuth = true)

/-- Actions emitted by the device handshake only carry
non-device-scoped events. -/
def GoodAction : RegAction → Prop
  | .emitToSelf ev => badEv ev = false
  | _ => True

theorem mapGet_cons (p : String × α) (t : List (String × α)) (k : String) :
    mapGet (p :: t) k = if p.1 = k then some p.2 else mapGet t k := by
  unfold mapGet
  by_cases hp : p.1 = k
  · rw [List.find?_cons_of_pos _ (by simp [hp]), if_pos hp, Option.map_some']
  · rw [List.find?_cons_of_neg _ (by simp [hp]), if_neg hp]

theorem mapSet_cons (p : String × α) (t : List (String × α)) (k : String) (v : α) :
    mapSet (p :: t) k v = if p.1 = k then (k, v) :: t else p :: mapSet t k v := rfl

theorem mapGet_set_self (m : List (String × α)) (k : String) (v : α) :
    mapGet (mapSet m k v) k = some v := by
  induction m with
  | nil => simp [mapSet, mapGet_cons]
  | cons p t ih =>
    rw [mapSet_cons]
    by_cases hp : p.1 = k
    · rw [if_pos hp, mapGet_cons, if_pos rfl]
    · rw [if_neg hp, mapGet_cons, if_neg hp]
      exact ih

theorem mapGet_set_ne (m : List (String × α)) (k k' : String) (v : α)
    (hne : k' ≠ k) : mapGet (mapSet m k v) k' = mapGet m k' := by
  induction m with
  | nil => simp [mapSet, mapGet, List.find?, Ne.symm hne]
  | cons p t ih =>
    rw [mapSet_cons]
    by_cases hp : p.1 = k
    · rw [if_pos hp, mapGet_cons, mapGet_cons, if_neg (by simp [Ne.symm hne]),
        if_neg (by rw [hp]; exact Ne.symm hne)]
    · rw [if_neg hp, mapGet_cons, mapGet_cons]
      by_cases hp' : p.1 = k'
      · rw [if_pos hp', if_pos hp']
      · rw [if_neg hp', if_neg hp']
        exact ih

theorem keys_mapSet_subset (m : List (String × α)) (k : String) (v : α) :
    ∀ a ∈ (mapSet m k v).map Prod.fst, a = k ∨ a ∈ m.map Prod.fst := by
  induction m with
  | nil => simp [mapSet]
  | cons p t ih =>
    intro a ha
    rw [mapSet_cons] at ha
    by_cases hp : p.1 = k
    · rw [if_pos hp] at ha
      simp only [List.map_cons, List.mem_cons] at ha
      rcases ha with rfl | ha
      · exact Or.inl rfl
      · exact Or.inr (by simp [ha])
    · rw [if_neg hp] at ha
      simp only [List.map_cons, List.mem_cons] at ha
      rcases ha with rfl | ha
      · exact Or.inr (by simp)
      · rcases ih a ha with h | h
        · exact Or.inl h
        · exact Or.inr (by simp [h])

theorem nodupKeys_mapSet (m : List (String × α)) (k : String) (v : α)
    (h : NodupKeys m) : NodupKeys (mapSet m k v) := by
  unfold NodupKeys at *
  induction m with
  | nil => simp [mapSet]
  | cons p t ih =>
    simp only [List.map_cons, List.nodup_cons] at h
    rw [mapSet_cons]
    by_cases hp : p.1 = k
    · rw [if_pos hp]
      simp only [List.map_cons, List.nodup_cons]
      exact ⟨hp ▸ h.1, h.2⟩
    · rw [if_neg hp]
      simp only [List.map_cons, List.nodup_cons]
      refine ⟨?_, ih h.2⟩
      intro hc
      rcases keys_mapSet_subset t k v p.1 hc with h' | h'
      · exact hp h'
      · exact h.1 h'

theorem nodupKeys_mapDelete (m : List (String × α)) (k : String)
    (h : NodupKeys m) : NodupKeys (mapDelete m k) := by
  unfold NodupKeys mapDelete at *
  exact List.Sublist.nodup (List.Sublist.map _ (List.filter_sublist m)) h

/-! ### Auxiliary lemmas -/

theorem mapGet_eq_none_of_not_has (m : List (String × α)) (k : String)
    (h : mapHas m k = false) : mapGet m k = none := by
  induction m with
  | nil => rfl
  | cons p t ih =>
    simp only [mapHas, List.any_cons, Bool.or_eq_false_iff] at h
    rw [mapGet_cons, if_neg (by simpa using h.1)]
    exact ih (by simpa [mapHas] using h.2)

/-- The history read by `addToPdfHistory` after the initialise-if-absent
step is the device's current ledger. -/
theorem addToPdfHistory_init_read (ph : List (String × List PdfHistoryEntry))
    (deviceId : String) :
    (mapGet (if mapHas ph deviceId then ph else mapSet ph deviceId []) deviceId).getD []
      = (mapGet ph deviceId).getD [] := by
  by_cases h : mapHas ph deviceId
  · rw [if_pos h]
  · rw [if_neg h, mapGet_set_self, mapGet_eq_none_of_not_has ph deviceId (by simpa using h)]
    rfl

theorem getLastD_cons_of_ne_nil (e : PdfHistoryEntry) (h : List PdfHistoryEntry)
    (hne : h ≠ []) : (e :: h).getLastD default = h.getLastD default := by
  cases h with
  | nil => exact absurd rfl hne
  | cons a t => rfl

theorem getLastD_eq_of_getLast? (h : List PdfHistoryEntry) (x : PdfHistoryEntry)
    (hx : h.getLast? = some x) : h.getLastD default = x := by
  induction h with
  | nil => simp at hx
  | cons a t ih =>
    cases t with
    | nil => simp [List.getLast?] at hx; simp [List.getLastD, hx]
    | cons b u =>
      rw [List.getLast?_cons_cons] at hx
      rw [getLastD_cons_of_ne_nil _ _ (by simp)]
      exact ih hx

/-! ### Claim C10 -/

/-- **C10**: a `POST /api/location` body with `latitude = 0` or
`longitude = 0` — values inside the valid coordinate ranges — is
rejected with 400 "Latitude and longitude are required" and no location
state changes, even for an authorized `deviceId`: the presence check
`!latitude || !longitude` is a JS truthiness test, so the coordinate `0`
is treated as missing. -/
theorem spec_C10_zero_coordinate_rejected (s : SState) (b : LocBody) (now : Nat)
    (h : b.latitude = some 0 ∨ b.longitude = some 0) :
    handleHttpLocation s b now
      = (s, .badRequest "Latitude and longitude are required") := by
  unfold handleHttpLocation
  rcases h with h | h <;>
    rw [if_pos (by simp [h, truthyInt])]

/-- Witness for C10: the concrete body
`{latitude: 0, longitude: 20, deviceId: "raspi-001"}` (an authorized
device) is answered 400 and the server state is untouched. -/
theorem spec_C10_zero_coordinate_rejected_witness :
    (LocBody.mk (some 0) (some 20) none (some "raspi-001")).latitude = some 0
    ∧ handleHttpLocation initialSState
        (LocBody.mk (some 0) (some 20) none (some "raspi-001")) 5
      = (initialSState, .badRequest "Latitude and longitude are required") :=
  ⟨rfl, spec_C10_zero_coordinate_rejected initialSState
    (LocBody.mk (some 0) (some 20) none (some "raspi-001")) 5 (Or.inl rfl)⟩

/-! ### Claim C2 -/

/-- **C2**: the per-device PDF ledger never exceeds 50 entries and is
ordered newest-first (the new entry is unshifted at the head); inserting
when the ledger already holds 50 removes exactly the oldest (last)
entry, and that entry's backing file no longer exists on storage
afterward.  (The source wraps the `fs.unlinkSync` in try/catch — a
deletion failure is logged, not propagated; the filesystem model deletes
deterministically.) -/
theorem spec_C2_pdf_ledger_capped (ph : List (String × List PdfHistoryEntry))
    (files : List String) (deviceId filename filePath : String)
    (qrCount fileSize now : Nat) (rand : String)
    (hlen : ((mapGet ph deviceId).getD []).length ≤ 50) :
    (((mapGet (addToPdfHistory ph files deviceId filename filePath qrCount
        fileSize now rand).pdfHistory deviceId).getD []).length ≤ 50)
    ∧ ((mapGet (addToPdfHistory ph files deviceId filename filePath qrCount
        fileSize now rand).pdfHistory deviceId).getD []).head?
      = some (addToPdfHistory ph files deviceId filename filePath qrCount
        fileSize now rand).entry
    ∧ (((mapGet ph deviceId).getD []).length < 50 →
        (mapGet (addToPdfHistory ph files deviceId filename filePath qrCount
          fileSize now rand).pdfHistory deviceId).getD []
          = (addToPdfHistory ph files deviceId filename filePath qrCount
            fileSize now rand).entry :: (mapGet ph deviceId).getD []
        ∧ (addToPdfHistory ph files deviceId filename filePath qrCount
            fileSize now rand).files = files)
    ∧ (((mapGet ph deviceId).getD []).length = 50 →
        (mapGet (addToPdfHistory ph files deviceId filename filePath qrCount
          fileSize now rand).pdfHistory deviceId).getD []
          = (addToPdfHistory ph files deviceId filename filePath qrCount
            fileSize now rand).entry :: ((mapGet ph deviceId).getD []).dropLast
        ∧ ∀ oldest, ((mapGet ph deviceId).getD []).getLast? = some oldest →
            oldest.filePath ∉ (addToPdfHistory ph files deviceId filename
              filePath qrCount fileSize now rand).files) := by
  have hread := addToPdfHistory_init_read ph deviceId
  simp only [addToPdfHistory, hread]
  set h := (mapGet ph deviceId).getD [] with hh
  clear_value h
  by_cases hfull : (mkPdfEntry filename filePath qrCount fileSize now rand :: h).length > 50
  · have h50 : h.length = 50 := by
      simp only [List.length_cons] at hfull; omega
    have hne : h ≠ [] := by
      intro hnil; rw [hnil] at h50; simp at h50
    rw [if_pos hfull]
    simp only [mapGet_set_self, Option.getD_some]
    have hdl : (mkPdfEntry filename filePath qrCount fileSize now rand
          :: h).dropLast
        = mkPdfEntry filename filePath qrCount fileSize now rand
          :: h.dropLast := by
      cases h with
      | nil => exact absurd rfl hne
      | cons a t => rfl
    refine ⟨?_, ?_, ?_, ?_⟩
    · rw [hdl]
      simp only [List.length_cons, List.length_dropLast, h50]
      omega
    · rw [hdl]; rfl
    · intro hlt; omega
    · intro _
      refine ⟨hdl, ?_⟩
      intro oldest hold
      have : (mkPdfEntry filename filePath qrCount fileSize now rand
            :: h).getLastD default = oldest := by
        rw [getLastD_cons_of_ne_nil _ _ hne]
        exact getLastD_eq_of_getLast? h oldest hold
      rw [this]
      simp [removeFile, List.mem_filter]
  · rw [if_neg hfull]
    simp only [mapGet_set_self, Option.getD_some]
    have hlt : h.length < 50 := by
      simp only [List.length_cons] at hfull; omega
    refine ⟨?_, rfl, fun _ => by simp, fun he => absurd he (by omega)⟩
    simp only [List.length_cons]
    omega

/-- Witness for C2: a concrete ledger of exactly 50 entries; the insert
keeps the length at 50, evicts the oldest entry and deletes its file. -/
theorem spec_C2_pdf_ledger_capped_witness :
    ((mapGet [("raspi-001",
        List.replicate 50 (PdfHistoryEntry.mk "old.pdf" 1 "qr-codes/raspi-001/old.pdf" 3 9 "pdf_1_x"))]
        "raspi-001").getD []).length ≤ 50
    ∧ (((mapGet (addToPdfHistory
        [("raspi-001",
          List.replicate 50 (PdfHistoryEntry.mk "old.pdf" 1 "qr-codes/raspi-001/old.pdf" 3 9 "pdf_1_x"))]
        ["qr-codes/raspi-001/old.pdf"] "raspi-001" "new.pdf"
        "qr-codes/raspi-001/new.pdf" 4 11 2 "y").pdfHistory
          "raspi-001").getD []).length ≤ 50)
    ∧ (∀ oldest,
        ((mapGet [("raspi-001",
          List.replicate 50 (PdfHistoryEntry.mk "old.pdf" 1 "qr-codes/raspi-001/old.pdf" 3 9 "pdf_1_x"))]
          "raspi-001").getD []).getLast? = some oldest →
        oldest.filePath ∉ (addToPdfHistory
          [("raspi-001",
            List.replicate 50 (PdfHistoryEntry.mk "old.pdf" 1 "qr-codes/raspi-001/old.pdf" 3 9 "pdf_1_x"))]
          ["qr-codes/raspi-001/old.pdf"] "raspi-001" "new.pdf"
          "qr-codes/raspi-001/new.pdf" 4 11 2 "y").files) := by
  have h := spec_C2_pdf_ledger_capped
    [("raspi-001",
      List.replicate 50 (PdfHistoryEntry.mk "old.pdf" 1 "qr-codes/raspi-001/old.pdf" 3 9 "pdf_1_x"))]
    ["qr-codes/raspi-001/old.pdf"] "raspi-001" "new.pdf"
    "qr-codes/raspi-001/new.pdf" 4 11 2 "y" (by decide)
  exact ⟨by decide, h.1, fun oldest hold => ((h.2.2.2 (by decide)).2 oldest hold)⟩

/-! ### Claim C3 -/

theorem lastN_append_left (n : Nat) (a b : List α) :
    lastN n (lastN n a ++ b) = lastN n (a ++ b) := by
  unfold lastN
  have h1 : a.drop (a.length - n) ++ b = (a ++ b).drop (a.length - n) :=
    (List.drop_append_of_le_length (by omega)).symm
  rw [h1, List.drop_drop]
  congr 1
  simp only [List.length_append, List.length_drop]
  omega

theorem updateLocationData_hist (N : Nat) (s : SState) (x : CurrentLocation)
    (hle : s.locationHistory.length ≤ N) :
    (updateLocationData N s x).locationHistory
      = lastN N (s.locationHistory ++ [x])
    ∧ (updateLocationData N s x).locationHistory.length ≤ N := by
  unfold updateLocationData lastN
  simp only [List.length_append, List.length_cons, List.length_nil]
  by_cases hfull : s.locationHistory.length + (0 + 1) > N
  · rw [if_pos hfull]
    have hN : s.locationHistory.length = N := by omega
    constructor
    · have : s.locationHistory.length + (0 + 1) - N = 1 := by omega
      rw [this, ← List.drop_one]
    · simp only [List.length_tail, List.length_append, List.length_cons,
        List.length_nil]
      omega
  · rw [if_neg hfull]
    constructor
    · have : s.locationHistory.length + (0 + 1) - N = 0 := by omega
      rw [this, List.drop_zero]
    · simp only [List.length_append, List.length_cons, List.length_nil]
      omega

theorem foldl_updateLocationData_hist (N : Nat) (locs : List CurrentLocation) :
    ∀ s : SState, s.locationHistory.length ≤ N →
      (locs.foldl (updateLocationData N) s).locationHistory
        = lastN N (s.locationHistory ++ locs)
      ∧ (locs.foldl (updateLocationData N) s).locationHistory.length ≤ N := by
  induction locs with
  | nil =>
    intro s hs
    unfold lastN
    constructor
    · simp only [List.foldl_nil, List.append_nil]
      have : s.locationHistory.length - N = 0 := by omega
      rw [this, List.drop_zero]
    · simpa using hs
  | cons x xs ih =>
    intro s hs
    have hstep := updateLocationData_hist N s x hs
    have := ih (updateLocationData N s x) hstep.2
    rw [List.foldl_cons]
    refine ⟨?_, this.2⟩
    rw [this.1, hstep.1, lastN_append_left, List.append_assoc]
    rfl

/-- **C3**: the location history never exceeds `N` entries (the source's
`MAX_HISTORY`, default 100): every prefix of a run of accepted updates
leaves at most `N` entries; and after exactly `N + 1` accepted updates
starting from an empty history, the history is precisely the updates
minus the oldest — the oldest entry was evicted (FIFO `shift`) and the
newest `N` are present in insertion order. -/
theorem spec_C3_history_fifo_bound (N : Nat) (locs : List CurrentLocation)
    (s₀ : SState) (h0 : s₀.locationHistory = []) :
    MAX_HISTORY = 100
    ∧ (∀ k, (((locs.take k).foldl (updateLocationData N) s₀).locationHistory).length ≤ N)
    ∧ (locs.length = N + 1 →
        (locs.foldl (updateLocationData N) s₀).locationHistory = locs.tail) := by
  refine ⟨rfl, ?_, ?_⟩
  · intro k
    exact (foldl_updateLocationData_hist N (locs.take k) s₀ (by simp [h0])).2
  · intro hlen
    have := (foldl_updateLocationData_hist N locs s₀ (by simp [h0])).1
    rw [this, h0, List.nil_append]
    unfold lastN
    rw [hlen]
    have : N + 1 - N = 1 := by omega
    rw [this, List.drop_one]

/-- Witness for C3 with `N = 2` and three concrete updates: the final
history is the last two updates in order. -/
theorem spec_C3_history_fifo_bound_witness :
    (initialSState.locationHistory = [])
    ∧ (∀ k, ((([CurrentLocation.mk (some 1) (some 1) (some 1) none (some "raspi-001"),
        CurrentLocation.mk (some 2) (some 2) (some 2) none (some "raspi-001"),
        CurrentLocation.mk (some 3) (some 3) (some 3) none (some "raspi-001")].take k).foldl
          (updateLocationData 2) initialSState).locationHistory).length ≤ 2)
    ∧ ([CurrentLocation.mk (some 1) (some 1) (some 1) none (some "raspi-001"),
        CurrentLocation.mk (some 2) (some 2) (some 2) none (some "raspi-001"),
        CurrentLocation.mk (some 3) (some 3) (some 3) none (some "raspi-001")].foldl
          (updateLocationData 2) initialSState).locationHistory
      = [CurrentLocation.mk (some 1) (some 1) (some 1) none (some "raspi-001"),
        CurrentLocation.mk (some 2) (some 2) (some 2) none (some "raspi-001"),
        CurrentLocation.mk (some 3) (some 3) (some 3) none (some "raspi-001")].tail := by
  have h := spec_C3_history_fifo_bound 2
    [CurrentLocation.mk (some 1) (some 1) (some 1) none (some "raspi-001"),
     CurrentLocation.mk (some 2) (some 2) (some 2) none (some "raspi-001"),
     CurrentLocation.mk (some 3) (some 3) (some 3) none (some "raspi-001")]
    initialSState rfl
  exact ⟨rfl, h.2.1, h.2.2 rfl⟩

/-! ### Claim C7 -/

theorem compressSteps_le (encode : Nat → Nat) :
    ∀ q s, compressSteps encode q s ≤ q / 10 := by
  intro q
  induction q using Nat.strong_induction_on with
  | _ q ih =>
    intro s
    rw [compressSteps]
    split
    · rename_i h
      have hrec := ih (q - 10) (by omega) (encode (q - 10))
      omega
    · omega

theorem compressLoop_quality_floor (encode : Nat → Nat) :
    ∀ q s, q % 10 = 5 → 15 ≤ q → 15 ≤ (compressLoop encode q s).1 := by
  intro q
  induction q using Nat.strong_induction_on with
  | _ q ih =>
    intro s hmod hge
    rw [compressLoop]
    split
    · rename_i h
      exact ih (q - 10) (by omega) (encode (q - 10)) (by omega) (by omega)
    · simpa using hge

theorem compressLoop_size_le (encode : Nat → Nat) :
    ∀ q, q % 10 = 5 → 15 ≤ q → encode 15 ≤ maxPhotoSize →
      (compressLoop encode q (encode q)).2 ≤ maxPhotoSize := by
  intro q
  induction q using Nat.strong_induction_on with
  | _ q ih =>
    intro hmod hge h15
    rw [compressLoop]
    split
    · rename_i h
      exact ih (q - 10) (by omega) (by omega) (by omega) h15
    · rename_i h
      by_cases hsz : encode q ≤ maxPhotoSize
      · simpa using hsz
      · have hq : q ≤ 20 := by
          rcases not_and_or.mp h with h' | h'
          · exact absurd (by omega : encode q > maxPhotoSize) h'
          · omega
        have : q = 15 := by omega
        subst this
        simpa using h15

/-- **C7**: the photo re-encoding loop terminates in a bounded number of
steps for every input (at most 8 iterations from the starting quality
85, with the quality stepping 85, 75, …, 25, 15 and never below the
floor 15), and whenever encoding at the minimum quality floor (15) fits
under the 5MB cap, the stored byte size is at most 5MB (oversize output
is accepted only at the floor). -/
theorem spec_C7_compress_loop_bounded (encode : Nat → Nat) :
    compressSteps encode 85 (encode 85) ≤ 8
    ∧ 15 ≤ (compressLoop encode 85 (encode 85)).1
    ∧ (encode 15 ≤ maxPhotoSize →
        (compressLoop encode 85 (encode 85)).2 ≤ maxPhotoSize) := by
  refine ⟨?_, ?_, ?_⟩
  · have := compressSteps_le encode 85 (encode 85)
    omega
  · exact compressLoop_quality_floor encode 85 (encode 85) (by decide) (by decide)
  · intro h15
    exact compressLoop_size_le encode 85 (by decide) (by decide) h15

/-- Witness for C7: the concrete encoder `fun _ => 0` (every quality
yields 0 bytes) satisfies the floor hypothesis and the bound. -/
theorem spec_C7_compress_loop_bounded_witness :
    compressSteps (fun _ => 0) 85 ((fun _ => 0) 85) ≤ 8
    ∧ ((fun _ => 0) 15 ≤ maxPhotoSize
        ∧ (compressLoop (fun _ => 0) 85 ((fun _ => 0) 85)).2 ≤ maxPhotoSize) :=
  ⟨(spec_C7_compress_loop_bounded (fun _ => 0)).1,
   by decide,
   (spec_C7_compress_loop_bounded (fun _ => 0)).2.2 (by decide)⟩

/-! ### Claim C6 -/

theorem find_setHasPhotoFirst (l : List QREntry) (fn : String) (q : QREntry)
    (h : l.find? (fun e => e.filename = fn) = some q) :
    (setHasPhotoFirst l fn).find? (fun e => e.filename = fn)
      = some { q with hasPhoto := true } := by
  induction l with
  | nil => simp [List.find?] at h
  | cons a t ih =>
    by_cases ha : a.filename = fn
    · rw [List.find?_cons_of_pos _ (by simpa using ha)] at h
      injection h with h
      subst h
      unfold setHasPhotoFirst
      rw [if_pos ha]
      rw [List.find?_cons_of_pos _ (by simpa using ha)]
    · rw [List.find?_cons_of_neg _ (by simpa using ha)] at h
      unfold setHasPhotoFirst
      rw [if_neg ha]
      rw [List.find?_cons_of_neg _ (by simpa using ha)]
      exact ih h

/-- **C6**: `POST /api/upload-photo/:qrFilename` fails 401
(`Unauthenticated`) without a valid session, 404 "No QR codes found for
this device" (`NoConfiguration`) when the device has no configuration,
and 404 "QR code not found" when `qrFilename` matches no QR entry; in
every failure case the configuration map is returned unchanged (no
`PhotoEntry` created, no `hasPhoto` flag changed) and no entry is
created.  On success a `PhotoEntry` is appended to `itemImages` and the
matching QR entry's `hasPhoto` is set to `true`. -/
theorem spec_C6_upload_photo_cases
    (configs : List (String × UserConfig)) (conn : List (String × SocketId))
    (files : List String) (session : Option Sess) (qrFilename : String)
    (file : Option String) (encode : Nat → Nat) (encData : Nat → String)
    (now : Nat) :
    ((session = none ∨ ∃ ss, session = some ss ∧ ss.authenticated = false) →
      uploadPhoto configs conn files session qrFilename file encode encData now
        = ⟨configs, files, .err 401 "Authentication required", none⟩)
    ∧ (∀ ss f, session = some ss → ss.authenticated = true → file = some f →
        mapGet configs ss.deviceId = none →
        uploadPhoto configs conn files session qrFilename file encode encData now
          = ⟨configs, files, .err 404 "No QR codes found for this device", none⟩)
    ∧ (∀ ss f cfg, session = some ss → ss.authenticated = true → file = some f →
        mapGet configs ss.deviceId = some cfg →
        cfg.qrCodes.find? (fun qr => qr.filename = qrFilename) = none →
        uploadPhoto configs conn files session qrFilename file encode encData now
          = ⟨configs, files, .err 404 "QR code not found", none⟩)
    ∧ (∀ ss f cfg q, session = some ss → ss.authenticated = true → file = some f →
        mapGet configs ss.deviceId = some cfg →
        cfg.qrCodes.find? (fun qr => qr.filename = qrFilename) = some q →
        ∃ pe,
          (uploadPhoto configs conn files session qrFilename file encode encData now).created
            = some pe
          ∧ pe.qrFilename = qrFilename
          ∧ mapGet (uploadPhoto configs conn files session qrFilename file
              encode encData now).configs ss.deviceId
            = some { cfg with
                itemImages := cfg.itemImages ++ [pe],
                qrCodes := setHasPhotoFirst cfg.qrCodes qrFilename }
          ∧ (setHasPhotoFirst cfg.qrCodes qrFilename).find?
              (fun e => e.filename = qrFilename) = some { q with hasPhoto := true }
          ∧ (uploadPhoto configs conn files session qrFilename file encode
              encData now).res
            = .ok (replaceExtWithJpg qrFilename)
                (compressLoop encode 85 (encode 85)).2 (mapHas conn ss.deviceId)) := by
  refine ⟨?_, ?_, ?_, ?_⟩
  · rintro (rfl | ⟨ss, rfl, hauth⟩)
    · rfl
    · simp [uploadPhoto, hauth]
  · rintro ss f rfl hauth rfl hcfg
    simp [uploadPhoto, hauth, hcfg]
  · rintro ss f cfg rfl hauth rfl hcfg hfind
    simp [uploadPhoto, hauth, hcfg, hfind]
  · rintro ss f cfg q rfl hauth rfl hcfg hfind
    refine ⟨⟨replaceExtWithJpg qrFilename, qrFilename,
        "item-images/" ++ ss.deviceId ++ "/" ++ replaceExtWithJpg qrFilename,
        encData (compressLoop encode 85 (encode 85)).1, now,
        (compressLoop encode 85 (encode 85)).2, true⟩, ?_, rfl, ?_, ?_, ?_⟩
    · simp [uploadPhoto, hauth, hcfg, hfind]
    · simp only [uploadPhoto, hauth, not_true_eq_false, if_false, hcfg, hfind]
      exact mapGet_set_self _ _ _
    · exact find_setHasPhotoFirst cfg.qrCodes qrFilename q hfind
    · simp [uploadPhoto, hauth, hcfg, hfind]

/-- Witness for C6: concrete states exercising the unauthenticated, the
missing-configuration, the unknown-QR failure and the success case. -/
theorem spec_C6_upload_photo_cases_witness :
    (uploadPhoto [] [] [] none "a.png" (some "/tmp/t") (fun _ => 0)
        (fun _ => "") 3
      = ⟨[], [], .err 401 "Authentication required", none⟩)
    ∧ (uploadPhoto [] [] [] (some ⟨true, "raspi-001"⟩) "a.png" (some "/tmp/t")
        (fun _ => 0) (fun _ => "") 3
      = ⟨[], [], .err 404 "No QR codes found for this device", none⟩)
    ∧ (uploadPhoto [("raspi-001", emptyConfig)] [] []
        (some ⟨true, "raspi-001"⟩) "a.png" (some "/tmp/t") (fun _ => 0)
        (fun _ => "") 3
      = ⟨[("raspi-001", emptyConfig)], [],
          .err 404 "QR code not found", none⟩)
    ∧ (∃ pe,
        (uploadPhoto
          [("raspi-001", UserConfig.mk [QREntry.mk "a.png" "a" 1 false none none] [] false none)]
          [] [] (some ⟨true, "raspi-001"⟩) "a.png" (some "/tmp/t")
          (fun _ => 0) (fun _ => "") 3).created = some pe
        ∧ pe.qrFilename = "a.png"
        ∧ (setHasPhotoFirst [QREntry.mk "a.png" "a" 1 false none none] "a.png").find?
            (fun e => e.filename = "a.png")
          = some { QREntry.mk "a.png" "a" 1 false none none with hasPhoto := true }) := by
  have h1 := (spec_C6_upload_photo_cases [] [] [] none "a.png" (some "/tmp/t")
    (fun _ => 0) (fun _ => "") 3).1 (Or.inl rfl)
  have h2 := (spec_C6_upload_photo_cases [] [] [] (some ⟨true, "raspi-001"⟩)
    "a.png" (some "/tmp/t") (fun _ => 0) (fun _ => "") 3).2.1
    ⟨true, "raspi-001"⟩ "/tmp/t" rfl rfl rfl (by decide)
  have h3 := (spec_C6_upload_photo_cases [("raspi-001", emptyConfig)] [] []
    (some ⟨true, "raspi-001"⟩) "a.png" (some "/tmp/t") (fun _ => 0)
    (fun _ => "") 3).2.2.1
    ⟨true, "raspi-001"⟩ "/tmp/t" emptyConfig rfl rfl rfl (by decide) (by decide)
  have h4 := (spec_C6_upload_photo_cases
    [("raspi-001", UserConfig.mk [QREntry.mk "a.png" "a" 1 false none none] [] false none)]
    [] [] (some ⟨true, "raspi-001"⟩) "a.png" (some "/tmp/t") (fun _ => 0)
    (fun _ => "") 3).2.2.2
    ⟨true, "raspi-001"⟩ "/tmp/t"
    (UserConfig.mk [QREntry.mk "a.png" "a" 1 false none none] [] false none)
    (QREntry.mk "a.png" "a" 1 false none none) rfl rfl rfl (by decide) (by decide)
  obtain ⟨pe, hpe1, hpe2, _, hpe4, _⟩ := h4
  exact ⟨h1, h2, h3, pe, hpe1, hpe2, hpe4⟩

/-! ### Claim C4 -/

theorem map_filename_mkQrEntry (now : Nat) (l : List QrInfo) :
    (l.map (mkQrEntry now)).map (fun e => e.filename)
      = l.map (fun q => q.filename) := by
  induction l with
  | nil => rfl
  | cons a t ih => simp only [List.map_cons, ih]; rfl

/-- **C4**: an accepted QR/PDF bundle upload from device `D` with list
`qrList` replaces `D`'s configuration QR entries entirely: the resulting
entries are exactly the entries built from `qrList`, every resulting
entry has `hasPhoto = false`, and every entry present before whose
filename is not in `qrList` is absent afterward.  This holds on the
Socket.IO `qrPdfUpload` path, and on the HTTP `POST /api/pdf` path
whenever the body carries a `qrList` array. -/
theorem spec_C4_bundle_replaces_config
    (w : World) (sid : SocketId) (sk : Sock) (filename pdfData : String)
    (qrList : List QrInfo) (now : Nat) (rand : String)
    (hs : getSock w sid = some sk) (hc : sk.connected = true)
    (hl : sk.hasDeviceListeners = true) (ha : authorizedId sk.deviceId = true) :
    (∃ cfg',
      mapGet (handleQrPdfUpload w sid filename pdfData qrList now
          rand).server.userConfigurations (sk.deviceId.getD "") = some cfg'
      ∧ cfg'.qrCodes = qrList.map (mkQrEntry now)
      ∧ (∀ e ∈ cfg'.qrCodes, e.hasPhoto = false)
      ∧ (∀ old ∈ ((mapGet w.server.userConfigurations
            (sk.deviceId.getD "")).getD emptyConfig).qrCodes,
          old.filename ∉ qrList.map (fun q => q.filename) →
          old.filename ∉ cfg'.qrCodes.map (fun e => e.filename)))
    ∧ (∀ (s : SState) (b : PdfBody) (now' : Nat) (rand' : String)
        (l : List QrInfo), b.qrList = some l → b.filename ≠ "" →
        b.pdfData ≠ "" → b.deviceId ≠ "" → b.deviceId ∈ AUTHORIZED_DEVICES →
        ∃ cfg',
          mapGet (handleHttpPdf s b now' rand').1.userConfigurations b.deviceId
            = some cfg'
          ∧ cfg'.qrCodes = l.map (mkQrEntry now')
          ∧ (∀ e ∈ cfg'.qrCodes, e.hasPhoto = false)
          ∧ (∀ old ∈ ((mapGet s.userConfigurations b.deviceId).getD
                emptyConfig).qrCodes,
              old.filename ∉ l.map (fun q => q.filename) →
              old.filename ∉ cfg'.qrCodes.map (fun e => e.filename))) := by
  constructor
  · simp only [handleQrPdfUpload, hs, hc, hl, ha, and_self, if_true]
    refine ⟨_, mapGet_set_self _ _ _, rfl, ?_, ?_⟩
    · intro e he
      simp only [List.mem_map] at he
      obtain ⟨q, _, rfl⟩ := he
      rfl
    · intro old _ hnotin
      rw [map_filename_mkQrEntry]
      exact hnotin
  · intro s b now' rand' l hqr hf hp hd hauthz
    simp only [handleHttpPdf, hqr]
    rw [if_neg (by simp [hf, hp]), if_neg (by simpa using hd),
      if_neg (by simpa using hauthz)]
    refine ⟨_, mapGet_set_self _ _ _, rfl, ?_, ?_⟩
    · intro e he
      simp only [List.mem_map] at he
      obtain ⟨q, _, rfl⟩ := he
      rfl
    · intro old _ hnotin
      rw [map_filename_mkQrEntry]
      exact hnotin

/-- Witness for C4: a device transport authenticated as `raspi-001`
uploads a two-entry bundle into a world whose configuration previously
held a different QR entry; the resulting entries are exactly the new
ones, all with `hasPhoto = false`. -/
theorem spec_C4_bundle_replaces_config_witness :
    getSock
      (World.mk [(7, Sock.mk true (some "device") (some "raspi-001") none false "" true)]
        { initialSState with
          userConfigurations :=
            [("raspi-001", UserConfig.mk [QREntry.mk "old.png" "old" 1 true none none] [] false none)] }
        [])
      7 = some (Sock.mk true (some "device") (some "raspi-001") none false "" true)
    ∧ (∃ cfg',
        mapGet (handleQrPdfUpload
          (World.mk [(7, Sock.mk true (some "device") (some "raspi-001") none false "" true)]
            { initialSState with
              userConfigurations :=
                [("raspi-001", UserConfig.mk [QREntry.mk "old.png" "old" 1 true none none] [] false none)] }
            [])
          7 "qr.pdf" "JVBERi0x" [QrInfo.mk "a.png" (some "A") (some "imgA"),
            QrInfo.mk "b.png" none (some "imgB")] 9
          "r").server.userConfigurations "raspi-001" = some cfg'
        ∧ cfg'.qrCodes = [QrInfo.mk "a.png" (some "A") (some "imgA"),
            QrInfo.mk "b.png" none (some "imgB")].map (mkQrEntry 9)
        ∧ (∀ e ∈ cfg'.qrCodes, e.hasPhoto = false)) := by
  have h := spec_C4_bundle_replaces_config
    (World.mk [(7, Sock.mk true (some "device") (some "raspi-001") none false "" true)]
      { initialSState with
        userConfigurations :=
          [("raspi-001", UserConfig.mk [QREntry.mk "old.png" "old" 1 true none none] [] false none)] }
      [])
    7 (Sock.mk true (some "device") (some "raspi-001") none false "" true)
    "qr.pdf" "JVBERi0x"
    [QrInfo.mk "a.png" (some "A") (some "imgA"), QrInfo.mk "b.png" none (some "imgB")]
    9 "r" (by decide) rfl rfl (by decide)
  obtain ⟨cfg', h1, h2, h3, _⟩ := h.1
  exact ⟨by decide, cfg', h1, h2, h3⟩

/-! ### Claim C5 -/

theorem mem_ioEmitList (w : World) (cs : SocketId) (csk : Sock) (ev : Ev)
    (hs : getSock w cs = some csk) (hc : csk.connected = true) :
    (cs, ev) ∈ ioEmitList w ev := by
  unfold getSock at hs
  obtain ⟨pr, hfind, rfl⟩ :
      ∃ pr, w.sockets.find? (fun p => p.1 = cs) = some pr ∧ pr.2 = csk := by
    cases hf : w.sockets.find? (fun p => p.1 = cs) with
    | none => rw [hf] at hs; simp at hs
    | some pr => rw [hf] at hs; exact ⟨pr, rfl, by simpa using hs⟩
  have hmem := List.mem_of_find?_eq_some hfind
  have h1 : pr.1 = cs := by simpa using List.find?_some hfind
  unfold ioEmitList
  rw [← h1]
  exact List.mem_map_of_mem _ (List.mem_filter_of_mem hmem (by simpa using hc))

/-- **C5**: a `locationUpdate` delivered on a transport whose registered
identity is an authorized device stores a record carrying a
server-generated timestamp and the sender's device id (for every payload
— in particular whatever timestamp the client supplied is ignored),
overwrites the current location, appends to the bounded history,
broadcasts the update to every connected transport (hence to all client
transports), and acks the sender.  On a transport whose registered
identity is absent or unauthorized, the handler only emits
`locationError` to the sender and changes no state. -/
theorem spec_C5_location_update_paths (w : World) (sid : SocketId) (sk : Sock)
    (p : LocPayload) (now : Nat) (hs : getSock w sid = some sk)
    (hc : sk.connected = true) (hl : sk.hasDeviceListeners = true) :
    (authorizedId sk.deviceId = true →
      (handleLocationUpdate w sid p now).server.currentLocation
        = mkLocRecord p sk.deviceId now
      ∧ (mkLocRecord p sk.deviceId now).timestamp = some now
      ∧ (mkLocRecord p sk.deviceId now).deviceId = sk.deviceId
      ∧ (handleLocationUpdate w sid p now).server.locationHistory
          = (if (w.server.locationHistory
                ++ [mkLocRecord p sk.deviceId now]).length > MAX_HISTORY
             then (w.server.locationHistory
                ++ [mkLocRecord p sk.deviceId now]).tail
             else w.server.locationHistory ++ [mkLocRecord p sk.deviceId now])
      ∧ (handleLocationUpdate w sid p now).log
          = w.log ++ ioEmitList w (.locationUpdate (mkLocRecord p sk.deviceId now))
              ++ [(sid, .locationAck true)]
      ∧ (∀ cs csk, getSock w cs = some csk → csk.connected = true →
          (cs, Ev.locationUpdate (mkLocRecord p sk.deviceId now))
            ∈ (handleLocationUpdate w sid p now).log)
      ∧ (sid, Ev.locationAck true) ∈ (handleLocationUpdate w sid p now).log
      ∧ (handleLocationUpdate w sid p now).sockets = w.sockets)
    ∧ (authorizedId sk.deviceId = false →
        handleLocationUpdate w sid p now
          = { w with log := w.log ++ [(sid, .locationError "Unauthorized location update")] }) := by
  constructor
  · intro ha
    have heq : handleLocationUpdate w sid p now
        = { w with
            server := updateLocationData MAX_HISTORY w.server
              (mkLocRecord p sk.deviceId now),
            log := w.log
              ++ ioEmitList w (.locationUpdate (mkLocRecord p sk.deviceId now))
              ++ [(sid, .locationAck true)] } := by
      simp only [handleLocationUpdate, hs, hc, hl, ha, and_self, if_true,
        ioEmit, emitTo, ioEmitList, updateLocationData, List.append_assoc]
    refine ⟨?_, rfl, rfl, ?_, ?_, ?_, ?_, ?_⟩
    · rw [heq]; simp [updateLocationData]
    · rw [heq]; simp [updateLocationData]
    · rw [heq]
    · intro cs csk hcs hcc
      rw [heq]
      simp only [List.mem_append]
      exact Or.inl (Or.inr (mem_ioEmitList w cs csk _ hcs hcc))
    · rw [heq]; simp
    · rw [heq]
  · intro ha
    simp only [handleLocationUpdate, hs, hc, hl, and_self, if_true, ha,
      Bool.false_eq_true, if_false, emitTo]

/-- Witness for C5: both branches at concrete worlds — an authorized
device transport (id 3, `raspi-001`) and a transport whose registered id
is not on the allow-list. -/
theorem spec_C5_location_update_paths_witness :
    ((handleLocationUpdate
        (World.mk [(3, Sock.mk true (some "device") (some "raspi-001") none false "" true)]
          initialSState [])
        3 (LocPayload.mk 40 (-74) (some 5) (some 999)) 7).server.currentLocation
      = mkLocRecord (LocPayload.mk 40 (-74) (some 5) (some 999)) (some "raspi-001") 7)
    ∧ (mkLocRecord (LocPayload.mk 40 (-74) (some 5) (some 999)) (some "raspi-001") 7).timestamp
      = some 7
    ∧ (handleLocationUpdate
        (World.mk [(4, Sock.mk true (some "device") (some "intruder") none false "" true)]
          initialSState [])
        4 (LocPayload.mk 1 2 none none) 7
      = { World.mk [(4, Sock.mk true (some "device") (some "intruder") none false "" true)]
            initialSState [] with
          log := [] ++ [(4, .locationError "Unauthorized location update")] }) := by
  have h1 := spec_C5_location_update_paths
    (World.mk [(3, Sock.mk true (some "device") (some "raspi-001") none false "" true)]
      initialSState [])
    3 (Sock.mk true (some "device") (some "raspi-001") none false "" true)
    (LocPayload.mk 40 (-74) (some 5) (some 999)) 7 (by decide) rfl rfl
  have h2 := spec_C5_location_update_paths
    (World.mk [(4, Sock.mk true (some "device") (some "intruder") none false "" true)]
      initialSState [])
    4 (Sock.mk true (some "device") (some "intruder") none false "" true)
    (LocPayload.mk 1 2 none none) 7 (by decide) rfl rfl
  have ha1 := h1.1 (by decide)
  exact ⟨ha1.1, ha1.2.1, h2.2 (by decide)⟩

/-! ### Claim C9 -/

/-- **C9** (failing-input evaluation): a client handshake on a transport
whose session is authenticated for `raspi-001`, where `raspi-001`'s
configuration holds one bundle-uploaded QR entry whose stored
`imageData` is `"IMGDATA"`.  The handshake pushes location history,
device presence, the configuration snapshot, and the live-device flag —
but the snapshot's QR entry carries `imageData = none`: the source maps
`imageData: qr.data` (server.js line 1345) while bundle entries store
the image under `imageData`, so the "embedded image data for display"
the claim (and the adjacent source comment) promises is lost.  The
stored entry still holds `some "IMGDATA"`. -/
theorem spec_C9_configdata_drops_imagedata :
    (handleAuthenticate
      (World.mk [(0, Sock.mk true none none none true "raspi-001" false)]
        { initialSState with
          userConfigurations :=
            [("raspi-001",
              UserConfig.mk [QREntry.mk "Monday_Keys.png" "Monday - Keys" 5 false (some "IMGDATA") none]
                [] false none)] }
        [])
      0 "client" none).log
    = [(0, .locationHistoryEv []),
       (0, .deviceStatus [] 0),
       (0, .configurationData [QRView.mk "Monday_Keys.png" "Monday - Keys" 5 false none] []),
       (0, .deviceConnectionStatus false "raspi-001")]
    ∧ (QREntry.mk "Monday_Keys.png" "Monday - Keys" 5 false (some "IMGDATA") none).imageData
      = some "IMGDATA"
    ∧ (toQRView (QREntry.mk "Monday_Keys.png" "Monday - Keys" 5 false (some "IMGDATA") none)).imageData
      = none := by
  refine ⟨?_, rfl, rfl⟩
  rfl

theorem find?_key_preserving (l : List (SocketId × Sock))
    (g : SocketId × Sock → SocketId × Sock) (hg : ∀ p, (g p).1 = p.1)
    (sid : SocketId) :
    (l.map g).find? (fun p => p.1 = sid) = (l.find? (fun p => p.1 = sid)).map g := by
  induction l with
  | nil => rfl
  | cons a t ih =>
    simp only [List.map_cons]
    by_cases ha : a.1 = sid
    · rw [List.find?_cons_of_pos _ (by simp [hg, ha]),
        List.find?_cons_of_pos _ (by simp [ha]), Option.map_some']
    · rw [List.find?_cons_of_neg _ (by simp [hg, ha]),
        List.find?_cons_of_neg _ (by simp [ha]), ih]

theorem getSock_setSock (w : World) (s : SocketId) (f : Sock → Sock)
    (sid : SocketId) :
    getSock (setSock w s f) sid
      = if sid = s then (getSock w sid).map f else getSock w sid := by
  unfold getSock setSock
  rw [find?_key_preserving _ _ (fun p => by by_cases h : p.1 = s <;> simp [h]) sid]
  cases hf : w.sockets.find? (fun p => p.1 = sid) with
  | none => simp
  | some pr =>
    have h1 : pr.1 = sid := by simpa using List.find?_some hf
    by_cases hss : sid = s
    · simp [hss, h1]
    · have : ¬ pr.1 = s := by rw [h1]; exact hss
      simp [hss, this]

theorem sockets_setSock_keys (w : World) (s : SocketId) (f : Sock → Sock) :
    (setSock w s f).sockets.map Prod.fst = w.sockets.map Prod.fst := by
  unfold setSock
  induction w.sockets with
  | nil => rfl
  | cons a t ih =>
    simp only [List.map_cons, List.map_map] at *
    by_cases h : a.1 = s <;> simp [h, ih]

theorem find?_eq_of_mem_nodup (l : List (SocketId × Sock))
    (hn : (l.map Prod.fst).Nodup) (pr : SocketId × Sock) (hm : pr ∈ l) :
    l.find? (fun p => p.1 = pr.1) = some pr := by
  induction l with
  | nil => simp at hm
  | cons a t ih =>
    simp only [List.map_cons, List.nodup_cons] at hn
    rcases List.mem_cons.mp hm with rfl | hm'
    · exact List.find?_cons_of_pos _ (by simp)
    · have hne : ¬ a.1 = pr.1 := by
        intro hc
        exact hn.1 (hc ▸ (List.mem_map.mpr ⟨pr, hm', rfl⟩))
      rw [List.find?_cons_of_neg _ (by simpa using hne)]
      exact ih hn.2 hm'

theorem getSock_of_mem (w : World) (hn : (w.sockets.map Prod.fst).Nodup)
    (pr : SocketId × Sock) (hm : pr ∈ w.sockets) :
    getSock w pr.1 = some pr.2 := by
  unfold getSock
  rw [find?_eq_of_mem_nodup w.sockets hn pr hm]
  rfl

theorem mem_scopedList_elim (w : World) (did : String) (ev : Ev)
    (q : SocketId × Ev) (hq : q ∈ scopedList w did ev) :
    q.2 = ev ∧ ∃ pr ∈ w.sockets, pr.1 = q.1 ∧ pr.2.connected = true
      ∧ pr.2.deviceType = some "client"
      ∧ pr.2.authenticatedDeviceId = some did := by
  unfold scopedList at hq
  obtain ⟨pr, hpr, rfl⟩ := List.mem_map.mp hq
  have hf := List.mem_filter.mp hpr
  refine ⟨rfl, pr, hf.1, rfl, ?_⟩
  have := hf.2
  simp only [Bool.and_eq_true, decide_eq_true_eq] at this
  exact ⟨this.1.1, this.1.2, this.2⟩

theorem mem_ioEmitList_elim (w : World) (ev : Ev) (q : SocketId × Ev)
    (hq : q ∈ ioEmitList w ev) : q.2 = ev := by
  unfold ioEmitList at hq
  obtain ⟨pr, _, rfl⟩ := List.mem_map.mp hq
  rfl

/-- Master preservation lemma for steps that do not change the transport
list nor the registry and whose new log entries are either non-(scoped or
configuration) events or target session-authenticated transports. -/
theorem inv_of_benign (w w' : World) (h : Inv w)
    (hsock : w'.sockets = w.sockets)
    (hreg : w'.server.connectedDevices = w.server.connectedDevices)
    (hlog : ∀ sid ev, (sid, ev) ∈ w'.log → badEv ev = true →
      (sid, ev) ∈ w.log ∨ ∃ sk, getSock w sid = some sk ∧ sk.sessionAuth = true) :
    Inv w' := by
  obtain ⟨h1, h2, h3, h4, h5⟩ := h
  have hget : ∀ sid, getSock w' sid = getSock w sid := by
    intro sid; unfold getSock; rw [hsock]
  refine ⟨by rw [hsock]; exact h1, by rw [hreg]; exact h2, ?_, ?_, ?_⟩
  · intro p hp
    rw [hget]
    exact h3 p (by rw [← hreg]; exact hp)
  · intro sid sk hs
    rw [hget] at hs
    exact h4 sid sk hs
  · intro sid ev hmem hbad
    rw [hget]
    rcases hlog sid ev hmem hbad with hold | hnew
    · exact h5 sid ev hold hbad
    · exact hnew

theorem inv_ioEmit (w : World) (ev : Ev) (h : Inv w) (hb : badEv ev = false) :
    Inv (ioEmit w ev) := by
  refine inv_of_benign w _ h rfl rfl ?_
  intro sid ev' hm hbad
  left
  rcases List.mem_append.mp hm with h' | h'
  · exact h'
  · have := mem_ioEmitList_elim w ev _ h'
    simp only at this
    rw [this] at hbad
    rw [hbad] at hb
    cases hb

theorem inv_emitTo (w : World) (sid₀ : SocketId) (ev : Ev) (h : Inv w)
    (hb : badEv ev = false) : Inv (emitTo w sid₀ ev) := by
  refine inv_of_benign w _ h rfl rfl ?_
  intro sid ev' hm hbad
  left
  rcases List.mem_append.mp hm with h' | h'
  · exact h'
  · simp only [List.mem_singleton, Prod.mk.injEq] at h'
    rw [h'.2] at hbad
    rw [hbad] at hb
    cases hb

theorem inv_emitTo_auth (w : World) (sid₀ : SocketId) (ev : Ev) (h : Inv w)
    (hauth : ∃ sk, getSock w sid₀ = some sk ∧ sk.sessionAuth = true) :
    Inv (emitTo w sid₀ ev) := by
  refine inv_of_benign w _ h rfl rfl ?_
  intro sid ev' hm _
  rcases List.mem_append.mp hm with h' | h'
  · exact Or.inl h'
  · simp only [List.mem_singleton, Prod.mk.injEq] at h'
    right
    rw [h'.1]
    exact hauth

theorem inv_broadcast (w : World) (did : String) (ev : Ev) (h : Inv w) :
    Inv (broadcastToWebClients w did ev) := by
  refine inv_of_benign w _ h rfl rfl ?_
  intro sid ev' hm _
  rcases List.mem_append.mp hm with h' | h'
  · exact Or.inl h'
  · right
    obtain ⟨_, pr, hpr, hk, _, _, hdid⟩ := mem_scopedList_elim w did ev _ h'
    refine ⟨pr.2, ?_, ?_⟩
    · have hgs := getSock_of_mem w h.1 pr hpr
      have hk' : pr.1 = sid := hk
      rw [hk'] at hgs
      exact hgs
    · by_contra hfalse
      have := h.2.2.2.1 pr.1 pr.2 (getSock_of_mem w h.1 pr hpr)
        (by revert hfalse; cases pr.2.sessionAuth <;> simp)
      rw [this] at hdid
      cases hdid

theorem inv_setSock_benign (w : World) (s : SocketId) (f : Sock → Sock)
    (h : Inv w) (hfa : ∀ sk, (f sk).sessionAuth = sk.sessionAuth)
    (hfd : ∀ sk, (f sk).authenticatedDeviceId = sk.authenticatedDeviceId) :
    Inv (setSock w s f) := by
  obtain ⟨h1, h2, h3, h4, h5⟩ := h
  refine ⟨?_, h2, ?_, ?_, ?_⟩
  · rw [sockets_setSock_keys]; exact h1
  · intro p hp
    rw [getSock_setSock]
    split
    · have := h3 p hp
      cases hgo : getSock w p.2 with
      | none => rw [hgo] at this; cases this
      | some sk => rfl
    · exact h3 p hp
  · intro sid sk hs hfalse
    rw [getSock_setSock] at hs
    split at hs
    · cases hg : getSock w sid with
      | none => rw [hg] at hs; cases hs
      | some sk₀ =>
        rw [hg, Option.map_some'] at hs
        injection hs with hs
        subst hs
        rw [hfd]
        exact h4 sid sk₀ hg (by rw [← hfa]; exact hfalse)
    · exact h4 sid sk hs hfalse
  · intro sid ev hm hb
    obtain ⟨sk, hsk, hauth⟩ := h5 sid ev hm hb
    rw [getSock_setSock]
    split
    · exact ⟨f sk, by rw [hsk]; rfl, by rw [hfa]; exact hauth⟩
    · exact ⟨sk, hsk, hauth⟩

theorem inv_runDisconnect (w : World) (sid : SocketId) (h : Inv w) :
    Inv (runDisconnect w sid) := by
  cases hg : getSock w sid with
  | none => simp only [runDisconnect, hg]; exact h
  | some sk =>
    simp only [runDisconnect, hg]
    by_cases hcon : sk.connected = true
    · rw [if_pos hcon]
      have h₁ : Inv (setSock w sid (fun s => { s with connected := false })) :=
        inv_setSock_benign w sid _ h (fun _ => rfl) (fun _ => rfl)
      set w₁ := setSock w sid (fun s => { s with connected := false }) with hw₁
      by_cases hdev : sk.deviceType = some "device" ∧ sk.deviceId.isSome
      · rw [if_pos hdev]
        obtain ⟨g1, g2, g3, g4, g5⟩ := h₁
        have h₂ : Inv { w₁ with server := { w₁.server with
            connectedDevices := mapDelete w₁.server.connectedDevices (sk.deviceId.getD "") } } := by
          refine ⟨g1, nodupKeys_mapDelete _ _ g2, ?_, g4, g5⟩
          intro p hp
          exact g3 p (List.mem_of_mem_filter hp)
        exact inv_ioEmit _ _ h₂ rfl
      · rw [if_neg hdev]
        exact h₁
    · rw [if_neg hcon]
      exact h

theorem getSock_isSome_iff (w : World) (sid : SocketId) :
    (getSock w sid).isSome ↔ sid ∈ w.sockets.map Prod.fst := by
  unfold getSock
  cases hf : w.sockets.find? (fun p => p.1 = sid) with
  | none =>
    simp only [Option.map_none', Option.isSome_none]
    constructor
    · intro h; cases h
    · intro hm
      obtain ⟨p, hp, hk⟩ := List.mem_map.mp hm
      have := List.find?_eq_none.mp hf p hp
      simp [hk] at this
  | some pr =>
    simp only [Option.map_some', Option.isSome_some, true_iff]
    have h1 : pr.1 = sid := by simpa using List.find?_some hf
    exact h1 ▸ List.mem_map.mpr ⟨pr, List.mem_of_find?_eq_some hf, rfl⟩

theorem mem_mapSet_elim (m : List (String × α)) (k : String) (v : α) :
    ∀ p ∈ mapSet m k v, p = (k, v) ∨ p ∈ m := by
  induction m with
  | nil => simp [mapSet]
  | cons a t ih =>
    intro p hp
    rw [mapSet_cons] at hp
    by_cases ha : a.1 = k
    · rw [if_pos ha] at hp
      rcases List.mem_cons.mp hp with rfl | hp'
      · exact Or.inl rfl
      · exact Or.inr (List.mem_cons_of_mem _ hp')
    · rw [if_neg ha] at hp
      rcases List.mem_cons.mp hp with rfl | hp'
      · exact Or.inr (List.mem_cons_self _ _)
      · rcases ih p hp' with h | h
        · exact Or.inl h
        · exact Or.inr (List.mem_cons_of_mem _ h)

theorem sockets_keys_runDisconnect (w : World) (sid : SocketId) :
    (runDisconnect w sid).sockets.map Prod.fst = w.sockets.map Prod.fst := by
  cases hg : getSock w sid with
  | none => simp only [runDisconnect, hg]
  | some sk =>
    simp only [runDisconnect, hg]
    by_cases hcon : sk.connected = true
    · rw [if_pos hcon]
      by_cases hdev : sk.deviceType = some "device" ∧ sk.deviceId.isSome
      · rw [if_pos hdev]
        show ((setSock w sid (fun s => { s with connected := false })).sockets.map
          Prod.fst) = _
        exact sockets_setSock_keys w sid _
      · rw [if_neg hdev]
        exact sockets_setSock_keys w sid _
    · rw [if_neg hcon]

theorem sockets_keys_applyRegAction (selfSid : SocketId) (w : World)
    (a : RegAction) :
    (applyRegAction selfSid w a).sockets.map Prod.fst
      = w.sockets.map Prod.fst := by
  cases a with
  | emitToSelf ev => rfl
  | closeTransport s => exact sockets_keys_runDisconnect w s
  | installConnection did => exact sockets_setSock_keys _ _ _
  | emitDeviceStatus => rfl

theorem inv_applyRegAction (selfSid : SocketId) (w : World) (a : RegAction)
    (h : Inv w) (hex : (getSock w selfSid).isSome) (hgood : GoodAction a) :
    Inv (applyRegAction selfSid w a) := by
  cases a with
  | emitToSelf ev => exact inv_emitTo w selfSid ev h hgood
  | closeTransport s => exact inv_runDisconnect w s h
  | emitDeviceStatus => exact inv_ioEmit w _ h rfl
  | installConnection did =>
    have h₂ : Inv { w with server := { w.server with
        connectedDevices := mapSet w.server.connectedDevices did selfSid } } := by
      obtain ⟨h1, h2, h3, h4, h5⟩ := h
      refine ⟨h1, nodupKeys_mapSet _ _ _ h2, ?_, h4, h5⟩
      intro p hp
      rcases mem_mapSet_elim _ _ _ p hp with rfl | hp'
      · exact hex
      · exact h3 p hp'
    exact inv_setSock_benign _ selfSid _ h₂ (fun _ => rfl) (fun _ => rfl)

theorem inv_foldl_applyRegAction (selfSid : SocketId) (acts : List RegAction) :
    ∀ w : World, Inv w → (getSock w selfSid).isSome →
      (∀ a ∈ acts, GoodAction a) →
      Inv (acts.foldl (applyRegAction selfSid) w) := by
  induction acts with
  | nil => intro w h _ _; exact h
  | cons a t ih =>
    intro w h hex hgood
    rw [List.foldl_cons]
    refine ih _ (inv_applyRegAction selfSid w a h hex (hgood a (by simp))) ?_ ?_
    · rw [getSock_isSome_iff, sockets_keys_applyRegAction]
      rw [getSock_isSome_iff] at hex
      exact hex
    · intro a' ha'
      exact hgood a' (List.mem_cons_of_mem _ ha')

theorem goodAction_deviceAuthActions (w : World) (sid : SocketId)
    (did : Option String) : ∀ a ∈ deviceAuthActions w sid did, GoodAction a := by
  intro a ha
  cases did with
  | none =>
    simp only [deviceAuthActions] at ha
    rcases List.mem_cons.mp ha with rfl | ha'
    · exact (rfl : badEv (.authError "Unauthorized device ID") = false)
    · rcases List.mem_cons.mp ha' with rfl | ha''
      · trivial
      · simp at ha''
  | some d =>
    simp only [deviceAuthActions] at ha
    by_cases hd : d ∈ AUTHORIZED_DEVICES
    · rw [if_pos hd] at ha
      rcases List.mem_append.mp ha with ha' | ha'
      · by_cases hhas : mapHas w.server.connectedDevices d
        · rw [if_pos hhas] at ha'
          rcases List.mem_cons.mp ha' with rfl | ha''
          · trivial
          · simp at ha''
        · rw [if_neg hhas] at ha'
          simp at ha'
      · rcases List.mem_cons.mp ha' with rfl | ha''
        · trivial
        · rcases List.mem_cons.mp ha'' with rfl | ha'''
          · exact (rfl : badEv (.authSuccess "Device authenticated successfully") = false)
          · rcases List.mem_cons.mp ha''' with rfl | ha''''
            · trivial
            · simp at ha''''
    · rw [if_neg hd] at ha
      rcases List.mem_cons.mp ha with rfl | ha'
      · exact (rfl : badEv (.authError "Unauthorized device ID") = false)
      · rcases List.mem_cons.mp ha' with rfl | ha''
        · trivial
        · simp at ha''

theorem getSock_emitTo (w : World) (s : SocketId) (ev : Ev) (sid : SocketId) :
    getSock (emitTo w s ev) sid = getSock w sid := rfl

theorem inv_setSock_bind (w : World) (sid : SocketId) (f : Sock → Sock)
    (h : Inv w) (hfa : ∀ sk, (f sk).sessionAuth = sk.sessionAuth)
    (hcond : ∀ sk, getSock w sid = some sk → sk.sessionAuth = true) :
    Inv (setSock w sid f) := by
  obtain ⟨h1, h2, h3, h4, h5⟩ := h
  refine ⟨?_, h2, ?_, ?_, ?_⟩
  · rw [sockets_setSock_keys]; exact h1
  · intro p hp
    rw [getSock_setSock]
    split
    · have := h3 p hp
      cases hgo : getSock w p.2 with
      | none => rw [hgo] at this; cases this
      | some sk => rfl
    · exact h3 p hp
  · intro sid' sk hs hfalse
    rw [getSock_setSock] at hs
    split at hs
    · cases hg : getSock w sid' with
      | none => rw [hg] at hs; cases hs
      | some sk₀ =>
        rw [hg, Option.map_some'] at hs
        injection hs with hs
        subst hs
        rename_i heq
        subst heq
        have := hcond sk₀ hg
        rw [hfa] at hfalse
        rw [hfalse] at this
        cases this
    · exact h4 sid' sk hs hfalse
  · intro sid' ev hm hb
    obtain ⟨sk, hsk, hauth⟩ := h5 sid' ev hm hb
    rw [getSock_setSock]
    split
    · exact ⟨f sk, by rw [hsk]; rfl, by rw [hfa]; exact hauth⟩
    · exact ⟨sk, hsk, hauth⟩

theorem inv_foldl_emitTo (sid : SocketId) (evs : List Ev) :
    ∀ w : World, Inv w →
      ((∀ ev ∈ evs, badEv ev = false)
        ∨ ∃ sk, getSock w sid = some sk ∧ sk.sessionAuth = true) →
      Inv (evs.foldl (fun w ev => emitTo w sid ev) w) := by
  induction evs with
  | nil => intro w h _; exact h
  | cons e t ih =>
    intro w h hcond
    rw [List.foldl_cons]
    rcases hcond with hgood | hauth
    · exact ih _ (inv_emitTo w sid e h (hgood e (by simp)))
        (Or.inl fun ev hev => hgood ev (List.mem_cons_of_mem _ hev))
    · exact ih _ (inv_emitTo_auth w sid e h hauth) (Or.inr hauth)

theorem inv_clientAuthHandle (w : World) (sid : SocketId) (sk : Sock)
    (h : Inv w) (hg : getSock w sid = some sk) :
    Inv (clientAuthHandle w sid sk) := by
  unfold clientAuthHandle
  by_cases hauth : sk.sessionAuth = true
  · rw [if_pos hauth]
    have h₁ : Inv (setSock w sid (fun s => { s with
        deviceType := some "client",
        authenticatedDeviceId := some sk.sessionDeviceId })) := by
      refine inv_setSock_bind w sid _ h (fun _ => rfl) ?_
      intro sk' hsk'
      rw [hg] at hsk'
      injection hsk' with hsk'
      rw [← hsk']
      exact hauth
    refine inv_foldl_emitTo sid _ _ h₁ (Or.inr ⟨{ sk with
      deviceType := some "client",
      authenticatedDeviceId := some sk.sessionDeviceId }, ?_, hauth⟩)
    rw [getSock_setSock, if_pos rfl, hg, Option.map_some']
  · rw [if_neg hauth]
    refine inv_emitTo _ _ _ ?_ rfl
    exact inv_setSock_benign w sid _ h (fun _ => rfl) (fun _ => rfl)

theorem inv_handleAuthenticate (w : World) (sid : SocketId) (type_ : String)
    (deviceId : Option String) (h : Inv w) :
    Inv (handleAuthenticate w sid type_ deviceId) := by
  cases hg : getSock w sid with
  | none => simp only [handleAuthenticate, hg]; exact h
  | some sk =>
    simp only [handleAuthenticate, hg]
    by_cases hcon : sk.connected = true
    · rw [if_pos hcon]
      by_cases ht : type_ = "device"
      · rw [if_pos ht]
        exact inv_foldl_applyRegAction sid _ w h (by rw [hg]; rfl)
          (goodAction_deviceAuthActions w sid deviceId)
      · rw [if_neg ht]
        exact inv_clientAuthHandle w sid sk h hg
    · rw [if_neg hcon]
      exact h

theorem inv_server_swap (w : World) (s' : SState) (h : Inv w)
    (hreg : s'.connectedDevices = w.server.connectedDevices) :
    Inv { w with server := s' } :=
  inv_of_benign w _ h rfl hreg (fun _ _ hm _ => Or.inl hm)

theorem inv_handleLocationUpdate (w : World) (sid : SocketId) (p : LocPayload)
    (now : Nat) (h : Inv w) : Inv (handleLocationUpdate w sid p now) := by
  cases hg : getSock w sid with
  | none => simp only [handleLocationUpdate, hg]; exact h
  | some sk =>
    simp only [handleLocationUpdate, hg]
    split
    · split
      · refine inv_emitTo _ _ _ ?_ rfl
        refine inv_ioEmit _ _ ?_ rfl
        exact inv_server_swap w _ h rfl
      · exact inv_emitTo _ _ _ h rfl
    · exact h

theorem inv_handleQrPdfUpload (w : World) (sid : SocketId)
    (filename pdfData : String) (qrList : List QrInfo) (now : Nat)
    (rand : String) (h : Inv w) :
    Inv (handleQrPdfUpload w sid filename pdfData qrList now rand) := by
  cases hg : getSock w sid with
  | none => simp only [handleQrPdfUpload, hg]; exact h
  | some sk =>
    simp only [handleQrPdfUpload, hg]
    split
    · split
      · refine inv_emitTo _ _ _ ?_ rfl
        refine inv_broadcast _ _ _ ?_
        exact inv_server_swap w _ h rfl
      · exact inv_emitTo _ _ _ h rfl
    · exact h

theorem inv_handleQrUpload (w : World) (sid : SocketId) (q : QrInfo)
    (now : Nat) (h : Inv w) : Inv (handleQrUpload w sid q now) := by
  cases hg : getSock w sid with
  | none => simp only [handleQrUpload, hg]; exact h
  | some sk =>
    simp only [handleQrUpload, hg]
    split
    · split
      · refine inv_emitTo _ _ _ ?_ rfl
        refine inv_broadcast _ _ _ ?_
        exact inv_server_swap w _ h rfl
      · exact inv_emitTo _ _ _ h rfl
    · exact h

theorem inv_foldl_photoData (sid : SocketId) (ps : List PhotoEntry) :
    ∀ w : World, Inv w →
      Inv (ps.foldl (fun w p =>
        emitTo w sid (.photoData p.filename p.compressedData p.qrFilename)) w) := by
  induction ps with
  | nil => intro w h; exact h
  | cons a t ih =>
    intro w h
    rw [List.foldl_cons]
    exact ih _ (inv_emitTo _ _ _ h rfl)

theorem inv_handleRequestPhotos (w : World) (sid : SocketId) (h : Inv w) :
    Inv (handleRequestPhotos w sid) := by
  cases hg : getSock w sid with
  | none => simp only [handleRequestPhotos, hg]; exact h
  | some sk =>
    simp only [handleRequestPhotos, hg]
    split
    · split
      · split
        · refine inv_emitTo _ _ _ ?_ rfl
          exact inv_foldl_photoData sid _ w h
        · exact h
      · exact h
    · exact h

theorem handleHttpLocation_reg (s : SState) (b : LocBody) (now : Nat) :
    (handleHttpLocation s b now).1.connectedDevices = s.connectedDevices := by
  unfold handleHttpLocation
  dsimp only
  repeat' split
  all_goals rfl

theorem inv_handleHttpLocationW (w : World) (b : LocBody) (now : Nat)
    (h : Inv w) : Inv (handleHttpLocationW w b now) := by
  unfold handleHttpLocationW
  dsimp only
  have hbase : Inv { w with server := (handleHttpLocation w.server b now).1 } :=
    inv_server_swap w _ h (handleHttpLocation_reg w.server b now)
  split
  · exact inv_ioEmit _ _ hbase rfl
  · exact hbase

theorem handleHttpPdf_reg (s : SState) (b : PdfBody) (now : Nat)
    (rand : String) :
    (handleHttpPdf s b now rand).1.connectedDevices = s.connectedDevices := by
  unfold handleHttpPdf
  dsimp only
  repeat' split
  all_goals rfl

theorem inv_handleHttpPdfW (w : World) (b : PdfBody) (now : Nat)
    (rand : String) (h : Inv w) : Inv (handleHttpPdfW w b now rand) := by
  unfold handleHttpPdfW
  dsimp only
  have hbase : Inv { w with server := (handleHttpPdf w.server b now rand).1 } :=
    inv_server_swap w _ h (handleHttpPdf_reg w.server b now rand)
  split
  · exact inv_broadcast _ _ _ hbase
  · exact hbase

theorem inv_handleHttpPhoto (w : World) (session : Option Sess)
    (qrFilename : String) (file : Option String) (encode : Nat → Nat)
    (encData : Nat → String) (now : Nat) (h : Inv w) :
    Inv (handleHttpPhoto w session qrFilename file encode encData now) := by
  unfold handleHttpPhoto
  dsimp only
  have hbase : Inv { w with server := { w.server with
      userConfigurations := (uploadPhoto w.server.userConfigurations
        w.server.connectedDevices w.server.files session qrFilename file
        encode encData now).configs,
      files := (uploadPhoto w.server.userConfigurations
        w.server.connectedDevices w.server.files session qrFilename file
        encode encData now).files } } :=
    inv_server_swap w _ h rfl
  split
  · refine inv_broadcast _ _ _ ?_
    split
    · exact inv_emitTo _ _ _ hbase rfl
    · exact hbase
  · exact hbase

theorem getSock_append_one (w : World) (x : SocketId × Sock) (sid : SocketId) :
    getSock { w with sockets := w.sockets ++ [x] } sid
      = (getSock w sid).or (if x.1 = sid then some x.2 else none) := by
  unfold getSock
  rw [List.find?_append]
  cases hf : w.sockets.find? (fun p => p.1 = sid) with
  | some pr => simp
  | none =>
    simp only [Option.map_none', Option.none_or]
    by_cases hx : x.1 = sid
    · simp [List.find?, hx]
    · simp [List.find?, hx]

theorem inv_handleConnect (w : World) (sid : SocketId) (a : Bool) (d : String)
    (h : Inv w) : Inv (handleConnect w sid a d) := by
  cases hg : getSock w sid with
  | some sk => simp only [handleConnect, hg]; exact h
  | none =>
    simp only [handleConnect, hg]
    obtain ⟨h1, h2, h3, h4, h5⟩ := h
    have hfresh : sid ∉ w.sockets.map Prod.fst := by
      rw [← getSock_isSome_iff, hg]
      simp
    refine ⟨?_, h2, ?_, ?_, ?_⟩
    · rw [List.map_append]
      refine List.Nodup.append h1 (List.nodup_singleton _) ?_
      intro k hk hk'
      simp only [List.map_cons, List.map_nil, List.mem_singleton] at hk'
      subst hk'
      exact hfresh hk
    · intro p hp
      rw [getSock_append_one]
      have := h3 p hp
      cases hgo : getSock w p.2 with
      | none => rw [hgo] at this; cases this
      | some sk => rfl
    · intro sid' sk' hs' hfalse
      rw [getSock_append_one] at hs'
      cases hgo : getSock w sid' with
      | some sk₀ =>
        rw [hgo] at hs'
        have hs'' : some sk₀ = some sk' := hs'
        injection hs'' with hs''
        subst hs''
        exact h4 sid' sk₀ hgo hfalse
      | none =>
        rw [hgo] at hs'
        simp only [Option.none_or] at hs'
        split at hs'
        · injection hs' with hs'
          rw [← hs']
        · cases hs'
    · intro sid' ev hm hb
      obtain ⟨sk₀, hsk₀, hauth₀⟩ := h5 sid' ev hm hb
      refine ⟨sk₀, ?_, hauth₀⟩
      rw [getSock_append_one, hsk₀]
      rfl

theorem inv_runInput (w : World) (i : Input) (h : Inv w) :
    Inv (runInput w i) := by
  cases i with
  | connect sid a d => exact inv_handleConnect w sid a d h
  | authenticate sid t did => exact inv_handleAuthenticate w sid t did h
  | disconnect sid => exact inv_runDisconnect w sid h
  | locationMsg sid p now => exact inv_handleLocationUpdate w sid p now h
  | qrPdfMsg sid fn pd ql now rand => exact inv_handleQrPdfUpload w sid fn pd ql now rand h
  | qrMsg sid q now => exact inv_handleQrUpload w sid q now h
  | requestPhotosMsg sid => exact inv_handleRequestPhotos w sid h
  | httpLocation b now => exact inv_handleHttpLocationW w b now h
  | httpPdf b now rand => exact inv_handleHttpPdfW w b now rand h
  | httpPhoto sess qrfn file enc encD now =>
    exact inv_handleHttpPhoto w sess qrfn file enc encD now h

theorem inv_initWorld : Inv initWorld := by
  refine ⟨List.nodup_nil, List.nodup_nil, ?_, ?_, ?_⟩
  · intro p hp; cases hp
  · intro sid sk hs; cases hs
  · intro sid ev hm; cases hm

theorem inv_runInputs (is : List Input) : Inv (runInputs is) := by
  unfold runInputs
  have : ∀ w, Inv w → Inv (is.foldl runInput w) := by
    induction is with
    | nil => intro w h; exact h
    | cons i t ih =>
      intro w h
      rw [List.foldl_cons]
      exact ih _ (inv_runInput w i h)
  exact this initWorld inv_initWorld

/-! ### Claim C1 -/

theorem mapGet_mem (m : List (String × α)) (k : String) (v : α)
    (h : mapGet m k = some v) : (k, v) ∈ m := by
  unfold mapGet at h
  cases hf : m.find? (fun p => p.1 = k) with
  | none => rw [hf] at h; cases h
  | some pr =>
    rw [hf, Option.map_some'] at h
    injection h with h
    have h1 : pr.1 = k := by simpa using List.find?_some hf
    have hm := List.mem_of_find?_eq_some hf
    rw [← h1, ← h]
    simpa using hm

theorem mapHas_of_get (m : List (String × α)) (k : String) (v : α)
    (h : mapGet m k = some v) : mapHas m k = true := by
  have hm := mapGet_mem m k v h
  unfold mapHas
  rw [List.any_eq_true]
  exact ⟨(k, v), hm, by simp⟩

theorem getSock_server_swap (w : World) (s' : SState) (sid : SocketId) :
    getSock { w with server := s' } sid = getSock w sid := rfl

theorem getSock_applyInstall (selfSid : SocketId) (w : World) (d : String)
    (sid : SocketId) :
    getSock (applyRegAction selfSid w (RegAction.installConnection d)) sid
      = if sid = selfSid then
          (getSock w sid).map (fun s =>
            { s with
              deviceId := some d, deviceType := some "device",
              hasDeviceListeners := true })
        else getSock w sid := by
  have h1 : getSock (applyRegAction selfSid w (RegAction.installConnection d)) sid
      = getSock (setSock w selfSid (fun s =>
          { s with
            deviceId := some d, deviceType := some "device",
            hasDeviceListeners := true })) sid := rfl
  rw [h1, getSock_setSock]

theorem getSock_runDisconnect_connected (w : World) (s : SocketId) (sk : Sock)
    (hg : getSock w s = some sk) :
    (getSock (runDisconnect w s) s).map (fun x => x.connected) = some false := by
  simp only [runDisconnect, hg]
  by_cases hcon : sk.connected = true
  · rw [if_pos hcon]
    have hset : getSock (setSock w s (fun x => { x with connected := false })) s
        = some { sk with connected := false } := by
      rw [getSock_setSock, if_pos rfl, hg, Option.map_some']
    by_cases hdev : sk.deviceType = some "device" ∧ sk.deviceId.isSome
    · rw [if_pos hdev]
      show (getSock (setSock w s (fun x => { x with connected := false })) s).map
          (fun x => x.connected) = some false
      rw [hset]
      rfl
    · rw [if_neg hdev]
      rw [hset]
      rfl
  · rw [if_neg hcon]
    rw [hg]
    have hc : sk.connected = false := by revert hcon; cases sk.connected <;> simp
    simp [hc]

/-- Replacement behaviour of a device handshake when the device id is
already registered: the handler's action list closes the previously
registered transport strictly before installing the new one; afterwards
the registry maps the id to the new transport, the old transport is
disconnected, and the registry keys stay unique. -/
theorem deviceAuth_replaces (w : World) (hInv : Inv w) (sid : SocketId)
    (sk : Sock) (d : String) (old : SocketId)
    (hs : getSock w sid = some sk) (hc : sk.connected = true)
    (hd : d ∈ AUTHORIZED_DEVICES)
    (hold : mapGet w.server.connectedDevices d = some old) :
    deviceAuthActions w sid (some d)
      = [.closeTransport old, .installConnection d,
         .emitToSelf (.authSuccess "Device authenticated successfully"),
         .emitDeviceStatus]
    ∧ mapGet (handleAuthenticate w sid "device"
        (some d)).server.connectedDevices d = some sid
    ∧ ((getSock (handleAuthenticate w sid "device" (some d)) old).map
        (fun x => x.connected)) = some false
    ∧ NodupKeys (handleAuthenticate w sid "device"
        (some d)).server.connectedDevices := by
  have hhas : mapHas w.server.connectedDevices d = true :=
    mapHas_of_get _ _ _ hold
  have hacts : deviceAuthActions w sid (some d)
      = [.closeTransport old, .installConnection d,
         .emitToSelf (.authSuccess "Device authenticated successfully"),
         .emitDeviceStatus] := by
    simp only [deviceAuthActions, if_pos hd, hhas, if_true, hold,
      Option.getD_some]
    rfl
  have hw' : handleAuthenticate w sid "device" (some d)
      = [RegAction.closeTransport old, RegAction.installConnection d,
         RegAction.emitToSelf (.authSuccess "Device authenticated successfully"),
         RegAction.emitDeviceStatus].foldl (applyRegAction sid) w := by
    simp only [handleAuthenticate, hs, hc, if_true]
    rw [hacts]
  obtain ⟨oldSk, holdSk⟩ :
      ∃ oldSk, getSock w old = some oldSk := by
    have := hInv.2.2.1 (d, old) (mapGet_mem _ _ _ hold)
    cases hgo : getSock w old with
    | none => rw [hgo] at this; cases this
    | some oldSk => exact ⟨oldSk, rfl⟩
  have h1cf : (getSock (runDisconnect w old) old).map (fun x => x.connected)
      = some false := getSock_runDisconnect_connected w old oldSk holdSk
  refine ⟨hacts, ?_, ?_, ?_⟩
  · rw [hw']
    simp only [List.foldl_cons, List.foldl_nil]
    show mapGet (mapSet (runDisconnect w old).server.connectedDevices d sid) d
      = some sid
    exact mapGet_set_self _ _ _
  · rw [hw']
    have hgs : getSock ([RegAction.closeTransport old,
          RegAction.installConnection d,
          RegAction.emitToSelf (.authSuccess "Device authenticated successfully"),
          RegAction.emitDeviceStatus].foldl (applyRegAction sid) w) old
        = getSock (applyRegAction sid (runDisconnect w old)
            (RegAction.installConnection d)) old := rfl
    rw [hgs, getSock_applyInstall]
    by_cases heq : old = sid
    · rw [if_pos heq]
      cases hgo : getSock (runDisconnect w old) old with
      | none => rw [hgo] at h1cf; cases h1cf
      | some s =>
        rw [hgo] at h1cf
        simpa using h1cf
    · rw [if_neg heq]
      exact h1cf
  · rw [hw']
    have hg' := goodAction_deviceAuthActions w sid (some d)
    rw [hacts] at hg'
    have := inv_foldl_applyRegAction sid
      [RegAction.closeTransport old, RegAction.installConnection d,
       RegAction.emitToSelf (.authSuccess "Device authenticated successfully"),
       RegAction.emitDeviceStatus] w hInv (by rw [hs]; rfl) hg'
    exact this.2.1

/-- **C1**: in every reachable state, at most one `DeviceConnection` is
registered per device identity (the registry keys are unique), and a
device handshake for an identity that already has a registered
connection emits the close of the prior transport strictly before the
install of the new one in its action sequence; after the handshake the
registry maps the identity to the new transport, the prior transport is
disconnected, and the keys remain unique (last-writer-wins). -/
theorem spec_C1_single_device_connection (inputs : List Input) :
    NodupKeys (runInputs inputs).server.connectedDevices
    ∧ (∀ sid sk d old,
        getSock (runInputs inputs) sid = some sk → sk.connected = true →
        d ∈ AUTHORIZED_DEVICES →
        mapGet (runInputs inputs).server.connectedDevices d = some old →
        deviceAuthActions (runInputs inputs) sid (some d)
          = [.closeTransport old, .installConnection d,
             .emitToSelf (.authSuccess "Device authenticated successfully"),
             .emitDeviceStatus]
        ∧ mapGet (runInput (runInputs inputs)
            (.authenticate sid "device" (some d))).server.connectedDevices d
          = some sid
        ∧ ((getSock (runInput (runInputs inputs)
            (.authenticate sid "device" (some d))) old).map
            (fun x => x.connected)) = some false
        ∧ NodupKeys (runInput (runInputs inputs)
            (.authenticate sid "device" (some d))).server.connectedDevices) := by
  have hInv := inv_runInputs inputs
  refine ⟨hInv.2.1, ?_⟩
  intro sid sk d old hs hc hd hold
  exact deviceAuth_replaces (runInputs inputs) hInv sid sk d old hs hc hd hold

/-- Witness for C1: transport 1 registers as `raspi-001`; a fresh
transport 2 then handshakes for the same id — the action list closes
transport 1 before installing transport 2, and afterwards the registry
maps `raspi-001` to transport 2 while transport 1 is disconnected. -/
theorem spec_C1_single_device_connection_witness :
    getSock (runInputs [Input.connect 1 false "",
        Input.authenticate 1 "device" (some "raspi-001"),
        Input.connect 2 false ""]) 2
      = some (Sock.mk true none none none false "" false)
    ∧ mapGet (runInputs [Input.connect 1 false "",
        Input.authenticate 1 "device" (some "raspi-001"),
        Input.connect 2 false ""]).server.connectedDevices "raspi-001"
      = some 1
    ∧ deviceAuthActions (runInputs [Input.connect 1 false "",
        Input.authenticate 1 "device" (some "raspi-001"),
        Input.connect 2 false ""]) 2 (some "raspi-001")
      = [.closeTransport 1, .installConnection "raspi-001",
         .emitToSelf (.authSuccess "Device authenticated successfully"),
         .emitDeviceStatus]
    ∧ mapGet (runInput (runInputs [Input.connect 1 false "",
        Input.authenticate 1 "device" (some "raspi-001"),
        Input.connect 2 false ""])
        (.authenticate 2 "device" (some "raspi-001"))).server.connectedDevices
        "raspi-001" = some 2
    ∧ ((getSock (runInput (runInputs [Input.connect 1 false "",
        Input.authenticate 1 "device" (some "raspi-001"),
        Input.connect 2 false ""])
        (.authenticate 2 "device" (some "raspi-001"))) 1).map
        (fun x => x.connected)) = some false := by
  have h := (spec_C1_single_device_connection [Input.connect 1 false "",
    Input.authenticate 1 "device" (some "raspi-001"),
    Input.connect 2 false ""]).2 2
    (Sock.mk true none none none false "" false) "raspi-001" 1
    (by decide) rfl (by decide) (by decide)
  exact ⟨by decide, by decide, h.1, h.2.1, h.2.2.1⟩

/-! ### Claim C8 -/

/-- **C8**: a client-variant handshake on a transport whose session
snapshot is unauthenticated marks the transport as a client (without
binding a device identity), sends it `authRequired`, and does not
disconnect it; and in every reachable state, a transport with an
unauthenticated session has never been delivered `configurationData`
nor any device-scoped broadcast (`badEv` events: `qrPdfReceived`,
`qrCodeReceived`, `pdfReceived`, `photoUploaded`, `configurationData`). -/
theorem spec_C8_unauth_client_isolation (inputs : List Input) :
    (∀ sid sk, getSock (runInputs inputs) sid = some sk →
      sk.connected = true → sk.sessionAuth = false →
      getSock (runInput (runInputs inputs)
          (.authenticate sid "client" none)) sid
        = some { sk with deviceType := some "client" }
      ∧ ({ sk with deviceType := some "client" } : Sock).connected = true
      ∧ (runInput (runInputs inputs) (.authenticate sid "client" none)).log
        = (runInputs inputs).log ++ [(sid, Ev.authRequired)])
    ∧ (∀ sid sk ev, getSock (runInputs inputs) sid = some sk →
        sk.sessionAuth = false → (sid, ev) ∈ (runInputs inputs).log →
        badEv ev = false) := by
  have hInv := inv_runInputs inputs
  constructor
  · intro sid sk hs hc hauth
    have heq : runInput (runInputs inputs) (.authenticate sid "client" none)
        = clientAuthHandle (runInputs inputs) sid sk := by
      show handleAuthenticate (runInputs inputs) sid "client" none = _
      simp only [handleAuthenticate, hs, hc, if_true]
      rw [if_neg (by decide)]
    refine ⟨?_, hc, ?_⟩
    · rw [heq]
      simp only [clientAuthHandle, hauth, Bool.false_eq_true, if_false]
      rw [getSock_emitTo, getSock_setSock, if_pos rfl, hs, Option.map_some',
        hauth]
    · rw [heq]
      simp only [clientAuthHandle, hauth, Bool.false_eq_true, if_false]
      rfl
  · intro sid sk ev hs hauth hmem
    by_contra hbad
    have hbad' : badEv ev = true := by revert hbad; cases badEv ev <;> simp
    obtain ⟨sk', hs', hauth'⟩ := hInv.2.2.2.2 sid ev hmem hbad'
    rw [hs] at hs'
    injection hs' with hs'
    rw [← hs'] at hauth'
    rw [hauth] at hauth'
    cases hauth'

/-- Witness for C8: transport 5 connects with an unauthenticated session
and handshakes as a client — it is marked as a client, stays connected,
receives exactly `authRequired`, and the only event it has ever received
is not a configuration/device-scoped one. -/
theorem spec_C8_unauth_client_isolation_witness :
    getSock (runInputs [Input.connect 5 false "x",
        Input.authenticate 5 "client" none]) 5
      = some (Sock.mk true (some "client") none none false "x" false)
    ∧ (runInputs [Input.connect 5 false "x",
        Input.authenticate 5 "client" none]).log
      = [(5, Ev.authRequired)]
    ∧ getSock (runInput (runInputs [Input.connect 5 false "x",
        Input.authenticate 5 "client" none])
        (.authenticate 5 "client" none)) 5
      = some { Sock.mk true (some "client") none none false "x" false with
          deviceType := some "client" }
    ∧ badEv Ev.authRequired = false := by
  have h := spec_C8_unauth_client_isolation [Input.connect 5 false "x",
    Input.authenticate 5 "client" none]
  have ha := h.1 5 (Sock.mk true (some "client") none none false "x" false)
    (by decide) rfl rfl
  have hb := h.2 5 (Sock.mk true (some "client") none none false "x" false)
    Ev.authRequired (by decide) rfl (by decide)
  exact ⟨by decide, by decide, ha.1, hb⟩

end SmartBag
